import Mathlib

/-!
Verification of the opaque-handle wrapping and indirection layer of the
dispatch object (file layers/chassis/dispatch_object_manual.cpp).

The entry points are embedded as pure functions over an explicit state
record.  The driver underneath the layer is an external collaborator, so
every embedded entry point takes the driver-produced result code and the
driver-produced output handles as parameters and returns, where relevant,
the argument values forwarded to the driver, the caller-visible outputs
and the updated layer state.
-/

namespace VVL


/-! ## Association-list maps

The concurrent maps of the layer (unique_id_mapping and the secondary
indexes) are embedded as association lists from Nat keys.  mapFind is
lookup, mapErase removes a key, mapSet is the operator-bracket assignment
of std maps (insert or overwrite), mapInsertNew is the insert operation
that leaves an existing entry alone, and mapPop is the atomic
find-and-erase used by the pop calls of the source.
-/

def mapFind {β : Type} : List (Nat × β) → Nat → Option β
  | [], _ => none
  | p :: rest, k => if p.1 = k then some p.2 else mapFind rest k


def mapErase {β : Type} : List (Nat × β) → Nat → List (Nat × β)
  | [], _ => []
  | p :: rest, k => if p.1 = k then mapErase rest k else p :: mapErase rest k


def mapSet {β : Type} (m : List (Nat × β)) (k : Nat) (v : β) : List (Nat × β) :=
  (k, v) :: mapErase m k


def mapInsertNew {β : Type} (m : List (Nat × β)) (k : Nat) (v : β) : List (Nat × β) :=
  match mapFind m k with
  | some _ => m
  | none => (k, v) :: m


def mapPop {β : Type} (m : List (Nat × β)) (k : Nat) : Option β × List (Nat × β) :=
  (mapFind m k, mapErase m k)


/-- Set-like insert used for the pool child sets (std set semantics:
inserting an element already present leaves the set unchanged). -/
def insertSet (x : Nat) (l : List Nat) : List Nat :=
  if x ∈ l then l else l ++ [x]


/-- The fold of single-key erasures performed by the cascading
invalidation loops, one erase per child handle, in list order. -/
def eraseAll {β : Type} : List (Nat × β) → List Nat → List (Nat × β)
  | m, [] => m
  | m, c :: rest => eraseAll (mapErase m c) rest


/-! ## Result codes and constants -/

def VK_SUCCESS : Int := 0

def VK_INCOMPLETE : Int := 5

def VK_NOT_READY : Int := 1

def VK_ERROR_OUT_OF_HOST_MEMORY : Int := -1

def VK_OPERATION_DEFERRED_KHR : Int := 1000268002

def VK_ATTACHMENT_UNUSED : Nat := 4294967295

/-- VK_DESCRIPTOR_UPDATE_TEMPLATE_TYPE_DESCRIPTOR_SET -/
def TEMPLATE_TYPE_DESCRIPTOR_SET : Nat := 0

/-- VK_DESCRIPTOR_UPDATE_TEMPLATE_TYPE_PUSH_DESCRIPTORS_KHR -/
def TEMPLATE_TYPE_PUSH_DESCRIPTORS : Nat := 1


/-! ## Data model -/

/-- Deferred-operation completion closures queued in
deferred_operation_post_completion.  The two ray-tracing cleanup closures
(lines 1304 and 1314 of the source) capture the pipeline handle list and,
when run, insert it into deferred_operation_pipelines; the
acceleration-structure cleanup closure (line 1480) only releases the
retained rewritten-argument memory. -/
inductive DeferClosure where
  | rtCleanupWrapped (opKey : Nat) (wrappedPipelines : List Nat)
  | rtCleanupUnwrapped (opKey : Nat) (pipelines : List Nat)
  | freeBuildInfos (tag : Nat)
deriving DecidableEq


/-- Per-render-pass record of renderpasses_states: which subpass indices
use a color attachment and which use a depth-stencil attachment. -/
structure RenderPassUsage where
  colorSubpasses : List Nat
  dsSubpasses : List Nat
deriving DecidableEq


inductive DescriptorType where
  | sampler
  | combinedImageSampler
  | sampledImage
  | storageImage
  | inputAttachment
  | uniformBuffer
  | storageBuffer
  | uniformBufferDynamic
  | storageBufferDynamic
  | uniformTexelBuffer
  | storageTexelBuffer
  | inlineUniformBlock
  | accelerationStructureNV
  | accelerationStructureKHR
deriving DecidableEq


/-- One VkDescriptorUpdateTemplateEntry. -/
structure DescriptorUpdateEntry where
  descriptorCount : Nat
  offset : Nat
  stride : Nat
  descriptorType : DescriptorType
deriving DecidableEq


/-- The handle-bearing content of VkDescriptorUpdateTemplateCreateInfo that
the source reads: template type, the two layout handles it unwraps, and
the update entries used by BuildUnwrappedUpdateTemplateBuffer. -/
structure DescriptorUpdateTemplateCreateInfo where
  templateType : Nat
  descriptorSetLayout : Nat
  pipelineLayout : Nat
  descriptorUpdateEntries : List DescriptorUpdateEntry
deriving DecidableEq


/-- The dispatch-object state shared by the embedded entry points: the
wrap_handles switch, the unique-id counter and Registry
(spec-modelled, see wrapNew and unwrapH), the secondary indexes, the
shadow template create infos and the deferred-operation records.
run_log records, in execution order, every completion closure that has
been run; post_check_log records every post-check invocation together
with the pipeline list it received. -/
structure DispatchState where
  wrap_handles : Bool
  global_unique_id : Nat
  unique_id_mapping : List (Nat × Nat)
  pool_descriptor_sets_map : List (Nat × List Nat)
  swapchain_wrapped_image_handle_map : List (Nat × List Nat)
  renderpasses_states : List (Nat × RenderPassUsage)
  desc_template_createinfo_map : List (Nat × DescriptorUpdateTemplateCreateInfo)
  deferred_operation_post_completion : List (Nat × List DeferClosure)
  deferred_operation_post_check : List (Nat × List Nat)
  deferred_operation_pipelines : List (Nat × List Nat)
  run_log : List DeferClosure
  post_check_log : List (Nat × List Nat)
deriving DecidableEq


/-! ## Spec-modelled Registry primitives

WrapNew, Unwrap and the unique_id_mapping operations are declared in the
dispatch-object header, which is not part of the analysed source file, so
they are modelled from the specification here.
-/

/-- Modelled from the spec: WrapNew (section 4.2 Handle Wrapper) is missing
from the analysed source.  It allocates a fresh synthetic identifier that
never reuses a still-live one, inserts the pair into the Registry, and
returns the synthetic handle.  Freshness is realised by a strictly
increasing counter, which dominates every live key (see WF). -/
def wrapNew (s : DispatchState) (realHandle : Nat) : Nat × DispatchState :=
  (s.global_unique_id,
   { s with
     global_unique_id := s.global_unique_id + 1,
     unique_id_mapping :=
       mapInsertNew s.unique_id_mapping s.global_unique_id realHandle })


/-- Modelled from the spec: Unwrap (section 4.2) is missing from the
analysed source.  A null handle is passed through, a hit returns the
stored real handle, and a miss returns a zero handle (section 7 policy). -/
def unwrapH (s : DispatchState) (h : Nat) : Nat :=
  if h = 0 then 0
  else
    match mapFind s.unique_id_mapping h with
    | some r => r
    | none => 0


/-- Well-formedness of the state: the unique-id counter is positive and
strictly dominates every live Registry key, so the next synthetic handle
is never a still-live one.  This is the freshness invariant of the
spec-modelled allocator. -/
def WF (s : DispatchState) : Prop :=
  0 < s.global_unique_id ∧
  ∀ p ∈ s.unique_id_mapping, p.1 < s.global_unique_id


instance (s : DispatchState) : Decidable (WF s) := by
  unfold WF
  infer_instance


/-! ## Entry-point argument structures -/

/-- Subpass description: the attachment indices the source inspects in
UpdateCreateRenderPassState (color attachments and the optional
depth-stencil attachment). -/
structure SubpassDescription where
  colorAttachments : List Nat
  depthStencilAttachment : Option Nat
deriving DecidableEq


structure RenderPassCreateInfo where
  subpasses : List SubpassDescription
deriving DecidableEq


/-- Fields of VkGraphicsPipelineCreateInfo that the source reads or
rewrites: the handles it unwraps, the subpass and renderPass used for the
renderpasses_states lookup, and the dynamic-rendering chain struct
(colorAttachmentCount, depthAttachmentFormat, stencilAttachmentFormat)
that overrides the attachment-usage flags.  groupStageModules and
groupPipelines model the VkGraphicsPipelineShaderGroupsCreateInfoNV chain
struct, binaryHandles the VkPipelineBinaryInfoKHR chain struct, and
libraryHandles the VkPipelineLibraryCreateInfoKHR chain struct. -/
structure GraphicsPipelineCreateInfo where
  basePipelineHandle : Nat
  layout : Nat
  stageModules : List Nat
  renderPass : Nat
  subpass : Nat
  dynamicRendering : Option (Nat × Nat × Nat)
  libraryHandles : List Nat
  groupStageModules : List (List Nat)
  groupPipelines : List Nat
  binaryHandles : List Nat
deriving DecidableEq


structure ComputePipelineCreateInfo where
  stageModule : Nat
  layout : Nat
  basePipelineHandle : Nat
deriving DecidableEq


structure RayTracingPipelineCreateInfoNV where
  stageModules : List Nat
  layout : Nat
  basePipelineHandle : Nat
  binaryHandles : List Nat
deriving DecidableEq


structure RayTracingPipelineCreateInfoKHR where
  stageModules : List Nat
  libraryHandles : List Nat
  layout : Nat
  basePipelineHandle : Nat
  binaryHandles : List Nat
deriving DecidableEq


/-- VK_FORMAT_UNDEFINED -/
def FORMAT_UNDEFINED : Nat := 0


/-! ## Output-wrapping loop shared by the batched creation calls -/

/-- The post-call loop of the batched pipeline-creation entry points:
every output slot holding a non-null handle is replaced by a freshly
wrapped handle; null slots are left untouched. -/
def wrapNonNullHandles : DispatchState → List Nat → List Nat × DispatchState
  | s, [] => ([], s)
  | s, p :: ps =>
    if p ≠ 0 then
      let syn := (wrapNew s p).1
      let s1 := (wrapNew s p).2
      let rest := wrapNonNullHandles s1 ps
      (syn :: rest.1, rest.2)
    else
      let rest := wrapNonNullHandles s ps
      (p :: rest.1, rest.2)


/-- Unconditional wrap of a handle list (the swapchain image loop wraps
every newly reported image without a null check). -/
def wrapList : DispatchState → List Nat → List Nat × DispatchState
  | s, [] => ([], s)
  | s, r :: rs =>
    let syn := (wrapNew s r).1
    let s1 := (wrapNew s r).2
    let rest := wrapList s1 rs
    (syn :: rest.1, rest.2)


/-! ## Render passes -/

/-- UpdateCreateRenderPassState: record, per subpass index, whether the
subpass uses a color attachment or a depth-stencil attachment, inserting
the index into the per-render-pass sets (keyed by the still-unwrapped
driver handle). -/
def updateCreateRenderPassState (m : List (Nat × RenderPassUsage))
    (ci : RenderPassCreateInfo) (renderPass : Nat) : List (Nat × RenderPassUsage) :=
  let st0 := (mapFind m renderPass).getD ⟨[], []⟩
  let st := (List.range ci.subpasses.length).foldl
    (fun acc subpass =>
      let sp := ci.subpasses.getD subpass ⟨[], none⟩
      let usesColor := sp.colorAttachments.any (fun a => a != VK_ATTACHMENT_UNUSED)
      let usesDS :=
        match sp.depthStencilAttachment with
        | some a => a != VK_ATTACHMENT_UNUSED
        | none => false
      let acc1 := if usesColor
        then { acc with colorSubpasses := insertSet subpass acc.colorSubpasses }
        else acc
      if usesDS then { acc1 with dsSubpasses := insertSet subpass acc1.dsSubpasses }
      else acc1)
    st0
  mapSet m renderPass st


/-- vkCreateRenderPass: the driver is called first with the caller
arguments; on success (and with wrapping enabled) the render-pass usage
state is recorded under the real handle and the output handle is
wrapped. -/
def CreateRenderPass (s : DispatchState) (pCreateInfo : RenderPassCreateInfo)
    (driverResult : Int) (driverRenderPass : Nat) : Int × Nat × DispatchState :=
  if !s.wrap_handles then (driverResult, driverRenderPass, s)
  else if driverResult = VK_SUCCESS then
    let s1 := { s with
      renderpasses_states :=
        updateCreateRenderPassState s.renderpasses_states pCreateInfo driverRenderPass }
    let syn := (wrapNew s1 driverRenderPass).1
    let s2 := (wrapNew s1 driverRenderPass).2
    (driverResult, syn, s2)
  else (driverResult, driverRenderPass, s)


/-! ## Batched pipeline creation -/

/-- The attachment-usage flags computed per graphics create info: a
renderpasses_states lookup at the unwrapped renderPass keyed on the
subpass, overridden when a dynamic-rendering chain struct is present. -/
def graphicsUsageFlags (s : DispatchState) (ci : GraphicsPipelineCreateInfo) :
    Bool × Bool :=
  let fromState :=
    match mapFind s.renderpasses_states (unwrapH s ci.renderPass) with
    | some u => (decide (ci.subpass ∈ u.colorSubpasses),
                 decide (ci.subpass ∈ u.dsSubpasses))
    | none => (false, false)
  match ci.dynamicRendering with
  | some (colorCount, depthFormat, stencilFormat) =>
      (decide (0 < colorCount),
       decide (depthFormat ≠ FORMAT_UNDEFINED ∨ stencilFormat ≠ FORMAT_UNDEFINED))
  | none => fromState


/-- The per-element rewrite of the graphics create-info loop: the local
deep copy keeps every field, with basePipelineHandle, layout, the stage
modules, renderPass, the library handles, the shader-group modules and
pipelines, and the pipeline binaries replaced by their unwrapped values
(null-guarded exactly where the source guards them). -/
def unwrapGraphicsCI (s : DispatchState) (ci : GraphicsPipelineCreateInfo) :
    GraphicsPipelineCreateInfo :=
  { ci with
    basePipelineHandle :=
      if ci.basePipelineHandle ≠ 0 then unwrapH s ci.basePipelineHandle
      else ci.basePipelineHandle,
    layout := if ci.layout ≠ 0 then unwrapH s ci.layout else ci.layout,
    stageModules :=
      ci.stageModules.map (fun m => if m ≠ 0 then unwrapH s m else m),
    renderPass := if ci.renderPass ≠ 0 then unwrapH s ci.renderPass else ci.renderPass,
    libraryHandles := ci.libraryHandles.map (fun h => unwrapH s h),
    groupStageModules :=
      ci.groupStageModules.map
        (fun stages => stages.map (fun m => if m ≠ 0 then unwrapH s m else m)),
    groupPipelines := ci.groupPipelines.map (fun h => unwrapH s h),
    binaryHandles := ci.binaryHandles.map (fun h => unwrapH s h) }


/-- vkCreateGraphicsPipelines.  Returns the driver-call arguments (the
forwarded pipelineCache, the forwarded create infos, and the usage flags
passed to the safe-struct copies when wrapping is on), the result, the
caller-visible output array, and the updated state. -/
def CreateGraphicsPipelines (s : DispatchState) (pipelineCache : Nat)
    (pCreateInfos : List GraphicsPipelineCreateInfo)
    (driverResult : Int) (driverPipelines : List Nat) :
    (Nat × List GraphicsPipelineCreateInfo × Option (List (Bool × Bool))) ×
      Int × List Nat × DispatchState :=
  if !s.wrap_handles then
    ((pipelineCache, pCreateInfos, none), driverResult, driverPipelines, s)
  else
    let localInfos := pCreateInfos.map (fun ci => unwrapGraphicsCI s ci)
    let flags := pCreateInfos.map (fun ci => graphicsUsageFlags s ci)
    let cache := if pipelineCache ≠ 0 then unwrapH s pipelineCache else pipelineCache
    let wrapped := wrapNonNullHandles s driverPipelines
    ((cache, localInfos, some flags), driverResult, wrapped.1, wrapped.2)


def unwrapComputeCI (s : DispatchState) (ci : ComputePipelineCreateInfo) :
    ComputePipelineCreateInfo :=
  { ci with
    stageModule := if ci.stageModule ≠ 0 then unwrapH s ci.stageModule else ci.stageModule,
    layout := if ci.layout ≠ 0 then unwrapH s ci.layout else ci.layout,
    basePipelineHandle :=
      if ci.basePipelineHandle ≠ 0 then unwrapH s ci.basePipelineHandle
      else ci.basePipelineHandle }


/-- vkCreateComputePipelines. -/
def CreateComputePipelines (s : DispatchState) (pipelineCache : Nat)
    (pCreateInfos : List ComputePipelineCreateInfo)
    (driverResult : Int) (driverPipelines : List Nat) :
    (Nat × List ComputePipelineCreateInfo) × Int × List Nat × DispatchState :=
  if !s.wrap_handles then
    ((pipelineCache, pCreateInfos), driverResult, driverPipelines, s)
  else
    let cache := unwrapH s pipelineCache
    let localInfos := pCreateInfos.map (fun ci => unwrapComputeCI s ci)
    let wrapped := wrapNonNullHandles s driverPipelines
    ((cache, localInfos), driverResult, wrapped.1, wrapped.2)


def unwrapRayTracingNVCI (s : DispatchState) (ci : RayTracingPipelineCreateInfoNV) :
    RayTracingPipelineCreateInfoNV :=
  { ci with
    stageModules := ci.stageModules.map (fun m => if m ≠ 0 then unwrapH s m else m),
    layout := if ci.layout ≠ 0 then unwrapH s ci.layout else ci.layout,
    basePipelineHandle :=
      if ci.basePipelineHandle ≠ 0 then unwrapH s ci.basePipelineHandle
      else ci.basePipelineHandle,
    binaryHandles := ci.binaryHandles.map (fun h => unwrapH s h) }


/-- vkCreateRayTracingPipelinesNV. -/
def CreateRayTracingPipelinesNV (s : DispatchState) (pipelineCache : Nat)
    (pCreateInfos : List RayTracingPipelineCreateInfoNV)
    (driverResult : Int) (driverPipelines : List Nat) :
    (Nat × List RayTracingPipelineCreateInfoNV) × Int × List Nat × DispatchState :=
  if !s.wrap_handles then
    ((pipelineCache, pCreateInfos), driverResult, driverPipelines, s)
  else
    let cache := unwrapH s pipelineCache
    let localInfos := pCreateInfos.map (fun ci => unwrapRayTracingNVCI s ci)
    let wrapped := wrapNonNullHandles s driverPipelines
    ((cache, localInfos), driverResult, wrapped.1, wrapped.2)


def unwrapRayTracingKHRCI (s : DispatchState) (ci : RayTracingPipelineCreateInfoKHR) :
    RayTracingPipelineCreateInfoKHR :=
  { ci with
    stageModules := ci.stageModules.map (fun m => if m ≠ 0 then unwrapH s m else m),
    libraryHandles := ci.libraryHandles.map (fun h => unwrapH s h),
    layout := if ci.layout ≠ 0 then unwrapH s ci.layout else ci.layout,
    basePipelineHandle :=
      if ci.basePipelineHandle ≠ 0 then unwrapH s ci.basePipelineHandle
      else ci.basePipelineHandle,
    binaryHandles := ci.binaryHandles.map (fun h => unwrapH s h) }


/-- vkCreateRayTracingPipelinesKHR.  With wrapping on, the handles inside
the create infos, the deferred-operation handle and the pipeline cache are
unwrapped before the driver call and the non-null outputs are wrapped
after it.  When the call is reported deferred, the existing completion
closures of the operation are popped, a cleanup closure capturing the
output pipelines is appended, and the list is re-inserted; the caller
always receives the driver-produced (then possibly wrapped) handles. -/
def CreateRayTracingPipelinesKHR (s : DispatchState) (deferredOperation : Nat)
    (pipelineCache : Nat) (pCreateInfos : List RayTracingPipelineCreateInfoKHR)
    (driverResult : Int) (driverPipelines : List Nat) :
    (Nat × Nat × List RayTracingPipelineCreateInfoKHR) ×
      Int × List Nat × DispatchState :=
  let dop := if s.wrap_handles then unwrapH s deferredOperation else deferredOperation
  let cache := if s.wrap_handles then unwrapH s pipelineCache else pipelineCache
  let localInfos :=
    if s.wrap_handles then pCreateInfos.map (fun ci => unwrapRayTracingKHRCI s ci)
    else pCreateInfos
  let wrapped :=
    if s.wrap_handles then wrapNonNullHandles s driverPipelines
    else (driverPipelines, s)
  let outs := wrapped.1
  let s1 := wrapped.2
  let isDeferred := dop ≠ 0 ∧ driverResult = VK_OPERATION_DEFERRED_KHR
  if isDeferred then
    let popped := mapPop s1.deferred_operation_post_completion dop
    let oldFns := popped.1.getD []
    let cleanup :=
      if s.wrap_handles then DeferClosure.rtCleanupWrapped dop outs
      else DeferClosure.rtCleanupUnwrapped dop driverPipelines
    let s2 := { s1 with
      deferred_operation_post_completion :=
        mapInsertNew popped.2 dop (oldFns ++ [cleanup]) }
    ((dop, cache, localInfos), driverResult, outs, s2)
  else
    ((dop, cache, localInfos), driverResult, outs, s1)


/-! ## Swapchain and present -/

/-- vkGetSwapchainImagesKHR.  Parameters: the app swapchain handle, the
driver result, and the driver-written image array (none when the caller
passed a null pSwapchainImages and only queried the count).  On success or
incomplete with a positive count and a non-null array, images beyond the
current length of the per-swapchain ordered child list are wrapped and
appended, and every output slot is served from the list. -/
def GetSwapchainImagesKHR (s : DispatchState) (swapchain : Nat)
    (driverResult : Int) (driverImages : Option (List Nat)) :
    Int × Option (List Nat) × DispatchState :=
  if !s.wrap_handles then (driverResult, driverImages, s)
  else if driverResult = VK_SUCCESS ∨ driverResult = VK_INCOMPLETE then
    match driverImages with
    | some imgs =>
      if 0 < imgs.length then
        let existing :=
          (mapFind s.swapchain_wrapped_image_handle_map swapchain).getD []
        let wrappedNew := wrapList s (imgs.drop existing.length)
        let full := existing ++ wrappedNew.1
        let s1 := { wrappedNew.2 with
          swapchain_wrapped_image_handle_map :=
            mapSet wrappedNew.2.swapchain_wrapped_image_handle_map swapchain full }
        (driverResult, some (full.take imgs.length), s1)
      else (driverResult, some imgs, s)
    | none => (driverResult, none, s)
  else (driverResult, driverImages, s)


/-- vkDestroySwapchainKHR.  Returns the handle forwarded to the driver
and the updated state: every wrapped image of the swapchain is erased
from the Registry, the per-swapchain child list is removed, and the
swapchain entry itself is removed by an atomic pop whose value (or a null
handle on a miss) is forwarded. -/
def DestroySwapchainKHR (s : DispatchState) (swapchain : Nat) :
    Nat × DispatchState :=
  if !s.wrap_handles then (swapchain, s)
  else
    let imageArray :=
      (mapFind s.swapchain_wrapped_image_handle_map swapchain).getD []
    let m1 := eraseAll s.unique_id_mapping imageArray
    let swapMap := mapErase s.swapchain_wrapped_image_handle_map swapchain
    let popped := mapPop m1 swapchain
    (popped.1.getD 0,
     { s with
       unique_id_mapping := popped.2,
       swapchain_wrapped_image_handle_map := swapMap })


/-- The handle-bearing content of VkPresentInfoKHR: the wait semaphores,
the swapchains and the optional pResults output array. -/
structure PresentInfo where
  waitSemaphores : List Nat
  swapchains : List Nat
  pResults : Option (List Int)
deriving DecidableEq


/-- vkQueuePresentKHR.  Returns the driver-facing deep copy (with the
semaphore and swapchain handles unwrapped), the result, the
caller-visible structure after the call (identical to the input except
that an app-provided pResults array receives the driver-written entries),
and the state. -/
def QueuePresentKHR (s : DispatchState) (_queue : Nat)
    (pPresentInfo : Option PresentInfo) (driverResult : Int)
    (driverResults : List Int) :
    Option PresentInfo × Int × Option PresentInfo × DispatchState :=
  if !s.wrap_handles then (pPresentInfo, driverResult, pPresentInfo, s)
  else
    match pPresentInfo with
    | none => (none, driverResult, none, s)
    | some pi =>
      let localInfo : PresentInfo :=
        { waitSemaphores := pi.waitSemaphores.map (fun h => unwrapH s h),
          swapchains := pi.swapchains.map (fun h => unwrapH s h),
          pResults := pi.pResults }
      let callerAfter : PresentInfo :=
        { pi with pResults := pi.pResults.map (fun _ => driverResults) }
      (some localInfo, driverResult, some callerAfter, s)


/-! ## Descriptor pools -/

/-- vkDestroyDescriptorPool.  Returns the handle forwarded to the driver
and the updated state: the Registry entries of every descriptor set
recorded in the pool child set are erased, the pool child-set entry is
removed, and the pool Registry entry is removed by an atomic pop whose
value (or a null handle on a miss) is forwarded. -/
def DestroyDescriptorPool (s : DispatchState) (descriptorPool : Nat) :
    Nat × DispatchState :=
  if !s.wrap_handles then (descriptorPool, s)
  else
    let children := (mapFind s.pool_descriptor_sets_map descriptorPool).getD []
    let m1 := eraseAll s.unique_id_mapping children
    let poolMap := mapErase s.pool_descriptor_sets_map descriptorPool
    let popped := mapPop m1 descriptorPool
    (popped.1.getD 0,
     { s with unique_id_mapping := popped.2, pool_descriptor_sets_map := poolMap })


/-- vkResetDescriptorPool.  Returns the unwrapped pool handle forwarded
to the driver, the result, and the updated state: only on a successful
driver call are the Registry entries of the recorded descriptor sets
erased and the pool child set cleared (the entry itself stays, empty). -/
def ResetDescriptorPool (s : DispatchState) (descriptorPool : Nat)
    (driverResult : Int) : Nat × Int × DispatchState :=
  if !s.wrap_handles then (descriptorPool, driverResult, s)
  else
    let fwd := unwrapH s descriptorPool
    if driverResult = VK_SUCCESS then
      let children := (mapFind s.pool_descriptor_sets_map descriptorPool).getD []
      let m1 := eraseAll s.unique_id_mapping children
      (fwd, driverResult,
       { s with
         unique_id_mapping := m1,
         pool_descriptor_sets_map :=
           mapSet s.pool_descriptor_sets_map descriptorPool [] })
    else (fwd, driverResult, s)


/-- The post-call loop of vkAllocateDescriptorSets: each driver-produced
set handle is wrapped and the wrapped handle inserted into the pool child
set. -/
def wrapSetsIntoPool : DispatchState → Nat → List Nat → List Nat × DispatchState
  | s, _, [] => ([], s)
  | s, pool, r :: rs =>
    let syn := (wrapNew s r).1
    let s1 := (wrapNew s r).2
    let s2 := { s1 with
      pool_descriptor_sets_map :=
        mapSet s1.pool_descriptor_sets_map pool
          (insertSet syn ((mapFind s1.pool_descriptor_sets_map pool).getD [])) }
    let rest := wrapSetsIntoPool s2 pool rs
    (syn :: rest.1, rest.2)


/-- vkAllocateDescriptorSets.  The allocate-info handles are unwrapped
into a local copy for the driver call (not tracked beyond the call); on
success the pool child-set entry is materialised (the operator-bracket
reference taken before the loop) and each driver-produced set handle is
wrapped and recorded. -/
def AllocateDescriptorSets (s : DispatchState) (descriptorPool : Nat)
    (driverResult : Int) (driverSets : List Nat) : List Nat × DispatchState :=
  if !s.wrap_handles then (driverSets, s)
  else if driverResult = VK_SUCCESS then
    let s0 := { s with
      pool_descriptor_sets_map :=
        mapSet s.pool_descriptor_sets_map descriptorPool
          ((mapFind s.pool_descriptor_sets_map descriptorPool).getD []) }
    wrapSetsIntoPool s0 descriptorPool driverSets
  else (driverSets, s)


/-! ## Descriptor update templates -/

/-- The local deep copy built by the create-template entry points: the
descriptorSetLayout handle is unwrapped for a descriptor-set template and
the pipelineLayout handle for a push-descriptors template. -/
def unwrapTemplateCI (s : DispatchState)
    (ci : DescriptorUpdateTemplateCreateInfo) : DescriptorUpdateTemplateCreateInfo :=
  let ci1 :=
    if ci.templateType = TEMPLATE_TYPE_DESCRIPTOR_SET then
      { ci with descriptorSetLayout := unwrapH s ci.descriptorSetLayout }
    else ci
  if ci.templateType = TEMPLATE_TYPE_PUSH_DESCRIPTORS then
    { ci1 with pipelineLayout := unwrapH s ci1.pipelineLayout }
  else ci1


/-- vkCreateDescriptorUpdateTemplate (core).  On success the output
handle is wrapped and, when a create info was supplied, its local deep
copy is shadowed in desc_template_createinfo_map keyed by the wrapped
handle. -/
def CreateDescriptorUpdateTemplate (s : DispatchState)
    (pCreateInfo : Option DescriptorUpdateTemplateCreateInfo)
    (driverResult : Int) (driverTemplate : Nat) : Int × Nat × DispatchState :=
  if !s.wrap_handles then (driverResult, driverTemplate, s)
  else
    let localCI := pCreateInfo.map (fun ci => unwrapTemplateCI s ci)
    if driverResult = VK_SUCCESS then
      let syn := (wrapNew s driverTemplate).1
      let s1 := (wrapNew s driverTemplate).2
      match localCI with
      | some lci =>
        (driverResult, syn,
         { s1 with
           desc_template_createinfo_map :=
             mapSet s1.desc_template_createinfo_map syn lci })
      | none => (driverResult, syn, s1)
    else (driverResult, driverTemplate, s)


/-- vkCreateDescriptorUpdateTemplateKHR (extension version, identical
body). -/
def CreateDescriptorUpdateTemplateKHR (s : DispatchState)
    (pCreateInfo : Option DescriptorUpdateTemplateCreateInfo)
    (driverResult : Int) (driverTemplate : Nat) : Int × Nat × DispatchState :=
  if !s.wrap_handles then (driverResult, driverTemplate, s)
  else
    let localCI := pCreateInfo.map (fun ci => unwrapTemplateCI s ci)
    if driverResult = VK_SUCCESS then
      let syn := (wrapNew s driverTemplate).1
      let s1 := (wrapNew s driverTemplate).2
      match localCI with
      | some lci =>
        (driverResult, syn,
         { s1 with
           desc_template_createinfo_map :=
             mapSet s1.desc_template_createinfo_map syn lci })
      | none => (driverResult, syn, s1)
    else (driverResult, driverTemplate, s)


/-- vkDestroyDescriptorUpdateTemplate: the shadow create info is erased,
then the template Registry entry is removed by an atomic pop and the
popped real handle (or a null handle) is forwarded. -/
def DestroyDescriptorUpdateTemplate (s : DispatchState)
    (descriptorUpdateTemplate : Nat) : Nat × DispatchState :=
  if !s.wrap_handles then (descriptorUpdateTemplate, s)
  else
    let tmplMap := mapErase s.desc_template_createinfo_map descriptorUpdateTemplate
    let popped := mapPop s.unique_id_mapping descriptorUpdateTemplate
    (popped.1.getD 0,
     { s with desc_template_createinfo_map := tmplMap, unique_id_mapping := popped.2 })


/-- The raw update-buffer memory handed to the update-with-template entry
points, abstracted as typed reads at byte offsets (the source reads the
same bytes through reinterpretation casts chosen by the descriptor
type).  readImage yields (sampler, imageView, imageLayout), readBuffer
yields (buffer, offset, range), readRaw yields the inline-uniform-block
bytes. -/
structure UpdateData where
  readImage : Nat → Nat × Nat × Nat
  readBuffer : Nat → Nat × Nat × Nat
  readBufferView : Nat → Nat
  readAccelNV : Nat → Nat
  readAccelKHR : Nat → Nat
  readRaw : Nat → Nat → List Nat


/-- One entry of the rewritten update buffer: what
BuildUnwrappedUpdateTemplateBuffer writes at a byte offset. -/
inductive TemplateEntryPayload where
  | image (sampler imageView imageLayout : Nat)
  | buffer (bufferHandle bufferOffset bufferRange : Nat)
  | bufferView (h : Nat)
  | accelNV (h : Nat)
  | accelKHR (h : Nat)
  | raw (bytes : List Nat)
deriving DecidableEq


/-- The per-descriptor rewrite of one template entry at one offset:
image-kind descriptors get sampler and imageView unwrapped, buffer-kind
descriptors get the buffer handle unwrapped, texel-buffer and
acceleration-structure descriptors get the single handle unwrapped. -/
def payloadAt (s : DispatchState) (t : DescriptorType) (d : UpdateData)
    (off : Nat) : TemplateEntryPayload :=
  match t with
  | .sampler | .combinedImageSampler | .sampledImage | .storageImage
  | .inputAttachment =>
    let e := d.readImage off
    .image (unwrapH s e.1) (unwrapH s e.2.1) e.2.2
  | .uniformBuffer | .storageBuffer | .uniformBufferDynamic
  | .storageBufferDynamic =>
    let e := d.readBuffer off
    .buffer (unwrapH s e.1) e.2.1 e.2.2
  | .uniformTexelBuffer | .storageTexelBuffer =>
    .bufferView (unwrapH s (d.readBufferView off))
  | .accelerationStructureNV => .accelNV (unwrapH s (d.readAccelNV off))
  | .accelerationStructureKHR => .accelKHR (unwrapH s (d.readAccelKHR off))
  | .inlineUniformBlock => .raw []


/-- The inner loop of BuildUnwrappedUpdateTemplateBuffer for one template
entry: one rewritten payload per descriptor at offset + j * stride, except
that an inline uniform block contributes a single raw byte range and
breaks out of the loop (no entry at all when its count is zero). -/
def templateEntriesFor (s : DispatchState) (e : DescriptorUpdateEntry)
    (d : UpdateData) : List (Nat × TemplateEntryPayload) :=
  match e.descriptorType with
  | .inlineUniformBlock =>
    if e.descriptorCount = 0 then []
    else [(e.offset, .raw (d.readRaw e.offset e.descriptorCount))]
  | t =>
    (List.range e.descriptorCount).map
      (fun j => (e.offset + j * e.stride, payloadAt s t d (e.offset + j * e.stride)))


/-- BuildUnwrappedUpdateTemplateBuffer.  The source looks the template up
in desc_template_createinfo_map and dereferences the result without
checking it, so a missing entry is undefined behaviour, embedded as
none; with the entry present, the rewritten buffer is the concatenation
of the per-entry rewrites. -/
def BuildUnwrappedUpdateTemplateBuffer (s : DispatchState)
    (descriptorUpdateTemplate : Nat) (d : UpdateData) :
    Option (List (Nat × TemplateEntryPayload)) :=
  match mapFind s.desc_template_createinfo_map descriptorUpdateTemplate with
  | none => none
  | some ci =>
    some ((ci.descriptorUpdateEntries.map (fun e => templateEntriesFor s e d)).flatten)


/-- The pData argument the driver receives: the raw caller buffer when
wrapping is off, the rewritten buffer when wrapping is on. -/
inductive TemplateDataArg where
  | raw (d : UpdateData)
  | unwrapped (buf : List (Nat × TemplateEntryPayload))


/-- vkUpdateDescriptorSetWithTemplate: returns the driver-call arguments
(unwrapped descriptor set, unwrapped template, rewritten buffer built
from the shadow create info keyed by the caller-supplied template
handle); none models the undefined lookup-miss dereference. -/
def UpdateDescriptorSetWithTemplate (s : DispatchState) (descriptorSet : Nat)
    (descriptorUpdateTemplate : Nat) (d : UpdateData) :
    Option (Nat × Nat × TemplateDataArg) :=
  if !s.wrap_handles then
    some (descriptorSet, descriptorUpdateTemplate, TemplateDataArg.raw d)
  else
    match BuildUnwrappedUpdateTemplateBuffer s descriptorUpdateTemplate d with
    | none => none
    | some buf =>
      some (unwrapH s descriptorSet, unwrapH s descriptorUpdateTemplate,
        TemplateDataArg.unwrapped buf)


/-- vkUpdateDescriptorSetWithTemplateKHR (identical body). -/
def UpdateDescriptorSetWithTemplateKHR (s : DispatchState) (descriptorSet : Nat)
    (descriptorUpdateTemplate : Nat) (d : UpdateData) :
    Option (Nat × Nat × TemplateDataArg) :=
  if !s.wrap_handles then
    some (descriptorSet, descriptorUpdateTemplate, TemplateDataArg.raw d)
  else
    match BuildUnwrappedUpdateTemplateBuffer s descriptorUpdateTemplate d with
    | none => none
    | some buf =>
      some (unwrapH s descriptorSet, unwrapH s descriptorUpdateTemplate,
        TemplateDataArg.unwrapped buf)


/-- vkCmdPushDescriptorSetWithTemplateKHR: the template and layout
handles are unwrapped and the rewritten buffer is built from the shadow
entry keyed by the caller-supplied template handle. -/
def CmdPushDescriptorSetWithTemplateKHR (s : DispatchState)
    (descriptorUpdateTemplate : Nat) (layout : Nat) (setNumber : Nat)
    (d : UpdateData) : Option (Nat × Nat × Nat × TemplateDataArg) :=
  if !s.wrap_handles then
    some (descriptorUpdateTemplate, layout, setNumber, TemplateDataArg.raw d)
  else
    match BuildUnwrappedUpdateTemplateBuffer s descriptorUpdateTemplate d with
    | none => none
    | some buf =>
      some (unwrapH s descriptorUpdateTemplate, unwrapH s layout, setNumber,
        TemplateDataArg.unwrapped buf)


/-- The caller structure of vkCmdPushDescriptorSetWithTemplate2KHR,
parameterised by the type of its pData field (the caller supplies raw
update memory; after the call the field can hold the rewritten buffer). -/
structure PushDescriptorSetWithTemplateInfo (α : Type) where
  descriptorUpdateTemplate : Nat
  layout : Nat
  setNumber : Nat
  pData : α


/-- vkCmdPushDescriptorSetWithTemplate2KHR.  Unlike the other template
entry points, the source rewrites the caller structure in place through
const casts: descriptorUpdateTemplate and layout are overwritten with
their unwrapped values and pData with the rewritten buffer, and none of
the three is restored after the driver call.  The embedding returns the
structure the driver sees and the structure the caller observes after the
call (the same mutated object); none models the undefined lookup-miss
dereference. -/
def CmdPushDescriptorSetWithTemplate2KHR (s : DispatchState)
    (info : PushDescriptorSetWithTemplateInfo UpdateData) :
    Option (PushDescriptorSetWithTemplateInfo TemplateDataArg ×
      PushDescriptorSetWithTemplateInfo TemplateDataArg) :=
  if !s.wrap_handles then
    let fwd : PushDescriptorSetWithTemplateInfo TemplateDataArg :=
      { descriptorUpdateTemplate := info.descriptorUpdateTemplate,
        layout := info.layout,
        setNumber := info.setNumber,
        pData := TemplateDataArg.raw info.pData }
    some (fwd, fwd)
  else
    match BuildUnwrappedUpdateTemplateBuffer s info.descriptorUpdateTemplate
        info.pData with
    | none => none
    | some buf =>
      let mutated : PushDescriptorSetWithTemplateInfo TemplateDataArg :=
        { descriptorUpdateTemplate := unwrapH s info.descriptorUpdateTemplate,
          layout := unwrapH s info.layout,
          setNumber := info.setNumber,
          pData := TemplateDataArg.unwrapped buf }
      some (mutated, mutated)


/-! ## Deferred operations -/

/-- Running one completion closure: the ray-tracing cleanup closures
insert their pipeline list into deferred_operation_pipelines (releasing
the retained create-info copies as a side effect); every run is recorded
in run_log. -/
def runClosure (s : DispatchState) (c : DeferClosure) : DispatchState :=
  match c with
  | .rtCleanupWrapped opKey pipelines =>
    { s with
      deferred_operation_pipelines :=
        mapInsertNew s.deferred_operation_pipelines opKey pipelines,
      run_log := s.run_log ++ [c] }
  | .rtCleanupUnwrapped opKey pipelines =>
    { s with
      deferred_operation_pipelines :=
        mapInsertNew s.deferred_operation_pipelines opKey pipelines,
      run_log := s.run_log ++ [c] }
  | .freeBuildInfos _ => { s with run_log := s.run_log ++ [c] }


def runClosures (s : DispatchState) : List DeferClosure → DispatchState
  | [] => s
  | c :: cs => runClosures (runClosure s c) cs


/-- Running the post-check callbacks with the finalized pipeline list:
each invocation is recorded in post_check_log. -/
def runPostChecks (s : DispatchState) (fns : List Nat) (pipelines : List Nat) :
    DispatchState :=
  { s with post_check_log := s.post_check_log ++ fns.map (fun f => (f, pipelines)) }


/-- The key under which the deferred-operation records are stored: the
operation handle after the conditional unwrap at the top of the two
polling entry points. -/
def opKeyOf (s : DispatchState) (operation : Nat) : Nat :=
  if s.wrap_handles then unwrapH s operation else operation


/-- vkDeferredOperationJoinKHR.  Returns the operation handle forwarded
to the driver, the driver result, and the updated state: only when the
driver call returns success are the queued completion closures popped
(atomically removing the record) and run in order. -/
def DeferredOperationJoinKHR (s : DispatchState) (operation : Nat)
    (driverResult : Int) : Nat × Int × DispatchState :=
  let op := opKeyOf s operation
  if driverResult = VK_SUCCESS then
    let popped := mapPop s.deferred_operation_post_completion op
    match popped.1 with
    | some fns =>
      (op, driverResult,
       runClosures { s with deferred_operation_post_completion := popped.2 } fns)
    | none => (op, driverResult, s)
  else (op, driverResult, s)


/-- The post-check phase of vkGetDeferredOperationResultKHR: the
post-check callbacks and the buffered pipeline list are popped and, when
both exist, the post-checks run on that list. -/
def postCheckPhase (s1 : DispatchState) (op : Nat) : DispatchState :=
  let checkPopped := mapPop s1.deferred_operation_post_check op
  let pipesPopped := mapPop s1.deferred_operation_pipelines op
  let s2 := { s1 with
    deferred_operation_post_check := checkPopped.2,
    deferred_operation_pipelines := pipesPopped.2 }
  match checkPopped.1, pipesPopped.1 with
  | some cfns, some ps => runPostChecks s2 cfns ps
  | _, _ => s2


/-- vkGetDeferredOperationResultKHR.  Returns the operation handle
forwarded to the driver, the driver result, and the updated state: only
when the driver call returns success are the queued completion closures
popped and run, followed by the post-check phase. -/
def GetDeferredOperationResultKHR (s : DispatchState) (operation : Nat)
    (driverResult : Int) : Nat × Int × DispatchState :=
  let op := opKeyOf s operation
  if driverResult = VK_SUCCESS then
    let popped := mapPop s.deferred_operation_post_completion op
    let s1 :=
      match popped.1 with
      | some fns =>
        runClosures { s with deferred_operation_post_completion := popped.2 } fns
      | none => s
    (op, driverResult, postCheckPhase s1 op)
  else (op, driverResult, s)


/-! ### The output-wrapping specification of the batched creation calls -/

/-- The correctness statement of the shared output-wrapping loop: the
output array has the same length as the driver output, null slots stay
null, every non-null slot is replaced by a fresh synthetic handle that
maps to the driver handle of that slot, and the only Registry keys
touched are the fresh handles of the non-null slots. -/
def BatchWrapSpec (s : DispatchState) (inputs outs : List Nat)
    (s' : DispatchState) : Prop :=
  outs.length = inputs.length ∧
  (∀ i, i < inputs.length → inputs.getD i 0 = 0 → outs.getD i 0 = 0) ∧
  (∀ i, i < inputs.length → inputs.getD i 0 ≠ 0 →
    outs.getD i 0 ≠ 0 ∧
    mapFind s.unique_id_mapping (outs.getD i 0) = none ∧
    mapFind s'.unique_id_mapping (outs.getD i 0) = some (inputs.getD i 0)) ∧
  (∀ k, mapFind s'.unique_id_mapping k ≠ mapFind s.unique_id_mapping k →
    k ≠ 0 ∧ k ∈ outs)


/-- Example state with wrapping enabled, two live Registry entries and a
next identifier dominating them. -/
def exRegState : DispatchState :=
  { wrap_handles := true
    global_unique_id := 100
    unique_id_mapping := [(5, 99), (7, 42)]
    pool_descriptor_sets_map := []
    swapchain_wrapped_image_handle_map := []
    renderpasses_states := []
    desc_template_createinfo_map := []
    deferred_operation_post_completion := []
    deferred_operation_post_check := []
    deferred_operation_pipelines := []
    run_log := []
    post_check_log := [] }


/-- Example state for the cascading destroy: pool 10 owns descriptor
sets 5 and 7, swapchain 10 owns image 5, and 10 itself is wrapped. -/
def exPoolState : DispatchState :=
  { wrap_handles := true
    global_unique_id := 100
    unique_id_mapping := [(10, 77), (5, 99), (7, 42)]
    pool_descriptor_sets_map := [(10, [5, 7])]
    swapchain_wrapped_image_handle_map := [(10, [5])]
    renderpasses_states := []
    desc_template_createinfo_map := []
    deferred_operation_post_completion := []
    deferred_operation_post_check := []
    deferred_operation_pipelines := []
    run_log := []
    post_check_log := [] }


/-- Example state for the swapchain witness: swapchain 20 wrapped, no
images recorded yet. -/
def exSwapState : DispatchState :=
  { wrap_handles := true
    global_unique_id := 100
    unique_id_mapping := [(20, 88)]
    pool_descriptor_sets_map := []
    swapchain_wrapped_image_handle_map := []
    renderpasses_states := []
    desc_template_createinfo_map := []
    deferred_operation_post_completion := []
    deferred_operation_post_check := []
    deferred_operation_pipelines := []
    run_log := []
    post_check_log := [] }


/-- The conclusion of claim C5 for one state, one operation and one
closure list: whichever polling entry point first observes success runs
all queued completion closures exactly once in queue order and removes
the record; a subsequent join or query runs no completion closure
again. -/
def DeferredExactlyOnceSpec (s : DispatchState) (operation : Nat)
    (fns : List DeferClosure) : Prop :=
  ((DeferredOperationJoinKHR s operation VK_SUCCESS).2.2.run_log =
    s.run_log ++ fns ∧
   mapFind (DeferredOperationJoinKHR s operation
     VK_SUCCESS).2.2.deferred_operation_post_completion
     (opKeyOf s operation) = none ∧
   (DeferredOperationJoinKHR (DeferredOperationJoinKHR s operation
     VK_SUCCESS).2.2 operation VK_SUCCESS).2.2.run_log =
     (DeferredOperationJoinKHR s operation VK_SUCCESS).2.2.run_log ∧
   (GetDeferredOperationResultKHR (DeferredOperationJoinKHR s operation
     VK_SUCCESS).2.2 operation VK_SUCCESS).2.2.run_log =
     (DeferredOperationJoinKHR s operation VK_SUCCESS).2.2.run_log) ∧
  ((GetDeferredOperationResultKHR s operation VK_SUCCESS).2.2.run_log =
    s.run_log ++ fns ∧
   mapFind (GetDeferredOperationResultKHR s operation
     VK_SUCCESS).2.2.deferred_operation_post_completion
     (opKeyOf s operation) = none ∧
   (DeferredOperationJoinKHR (GetDeferredOperationResultKHR s operation
     VK_SUCCESS).2.2 operation VK_SUCCESS).2.2.run_log =
     (GetDeferredOperationResultKHR s operation VK_SUCCESS).2.2.run_log ∧
   (GetDeferredOperationResultKHR (GetDeferredOperationResultKHR s operation
     VK_SUCCESS).2.2 operation VK_SUCCESS).2.2.run_log =
     (GetDeferredOperationResultKHR s operation VK_SUCCESS).2.2.run_log)


/-- Example state for the deferred-operation claims: operation 7 has
three queued completion closures (wrapping disabled, so the record key is
the raw handle). -/
def exDeferState : DispatchState :=
  { wrap_handles := false
    global_unique_id := 1
    unique_id_mapping := []
    pool_descriptor_sets_map := []
    swapchain_wrapped_image_handle_map := []
    renderpasses_states := []
    desc_template_createinfo_map := []
    deferred_operation_post_completion :=
      [(7, [DeferClosure.freeBuildInfos 0, DeferClosure.freeBuildInfos 1,
            DeferClosure.rtCleanupUnwrapped 7 [31, 32]])]
    deferred_operation_post_check := []
    deferred_operation_pipelines := []
    run_log := []
    post_check_log := [] }


/-- Example update memory whose reads all yield null handles and empty
bytes. -/
def exUpdateData : UpdateData :=
  { readImage := fun _ => (0, 0, 0)
    readBuffer := fun _ => (0, 0, 0)
    readBufferView := fun _ => 0
    readAccelNV := fun _ => 0
    readAccelKHR := fun _ => 0
    readRaw := fun _ _ => [] }


/-- Example state for the template claims: template 5 (real handle 99)
has a shadowed create info with no update entries, and 7 (real handle 42)
is a live pipeline layout. -/
def exTmplState : DispatchState :=
  { wrap_handles := true
    global_unique_id := 100
    unique_id_mapping := [(5, 99), (7, 42)]
    pool_descriptor_sets_map := []
    swapchain_wrapped_image_handle_map := []
    renderpasses_states := []
    desc_template_createinfo_map := [(5, ⟨0, 0, 0, []⟩)]
    deferred_operation_post_completion := []
    deferred_operation_post_check := []
    deferred_operation_pipelines := []
    run_log := []
    post_check_log := [] }


/-- The caller structure of the push-with-template call used in the C7
counterexample: wrapped template handle 5, wrapped layout handle 7. -/
def exPushInfo : PushDescriptorSetWithTemplateInfo UpdateData :=
  { descriptorUpdateTemplate := 5
    layout := 7
    setNumber := 0
    pData := exUpdateData }


/-- The conclusion of claim C8: with the wrap_handles switch off, every
embedded entry point forwards exactly the caller-supplied argument values
to the driver, returns the driver outputs unchanged, and leaves the
Registry, the secondary indexes and the unique-id counter untouched (the
ray-tracing-KHR and polling entry points may still update the
deferred-operation records, which are neither the Registry nor a
secondary index). -/
def PureForwardingSpec (s : DispatchState)
    (pipelineCache dopArg operation handle pool dset tmpl layoutArg setN
      queueArg : Nat)
    (gInfos : List GraphicsPipelineCreateInfo)
    (cInfos : List ComputePipelineCreateInfo)
    (nInfos : List RayTracingPipelineCreateInfoNV)
    (kInfos : List RayTracingPipelineCreateInfoKHR)
    (res r : Int) (pipes sets : List Nat)
    (imgsOpt : Option (List Nat)) (piOpt : Option PresentInfo)
    (drs : List Int) (ciOpt : Option DescriptorUpdateTemplateCreateInfo)
    (rpCI : RenderPassCreateInfo) (d : UpdateData)
    (info : PushDescriptorSetWithTemplateInfo UpdateData) : Prop :=
  CreateGraphicsPipelines s pipelineCache gInfos res pipes =
    ((pipelineCache, gInfos, none), res, pipes, s) ∧
  CreateComputePipelines s pipelineCache cInfos res pipes =
    ((pipelineCache, cInfos), res, pipes, s) ∧
  CreateRayTracingPipelinesNV s pipelineCache nInfos res pipes =
    ((pipelineCache, nInfos), res, pipes, s) ∧
  ((CreateRayTracingPipelinesKHR s dopArg pipelineCache kInfos res pipes).1 =
    (dopArg, pipelineCache, kInfos) ∧
   (CreateRayTracingPipelinesKHR s dopArg pipelineCache kInfos res
     pipes).2.1 = res ∧
   (CreateRayTracingPipelinesKHR s dopArg pipelineCache kInfos res
     pipes).2.2.1 = pipes ∧
   (CreateRayTracingPipelinesKHR s dopArg pipelineCache kInfos res
     pipes).2.2.2.unique_id_mapping = s.unique_id_mapping ∧
   (CreateRayTracingPipelinesKHR s dopArg pipelineCache kInfos res
     pipes).2.2.2.pool_descriptor_sets_map = s.pool_descriptor_sets_map ∧
   (CreateRayTracingPipelinesKHR s dopArg pipelineCache kInfos res
     pipes).2.2.2.swapchain_wrapped_image_handle_map =
     s.swapchain_wrapped_image_handle_map ∧
   (CreateRayTracingPipelinesKHR s dopArg pipelineCache kInfos res
     pipes).2.2.2.global_unique_id = s.global_unique_id) ∧
  ((DeferredOperationJoinKHR s operation r).1 = operation ∧
   (DeferredOperationJoinKHR s operation r).2.1 = r ∧
   (DeferredOperationJoinKHR s operation r).2.2.unique_id_mapping =
     s.unique_id_mapping ∧
   (DeferredOperationJoinKHR s operation r).2.2.pool_descriptor_sets_map =
     s.pool_descriptor_sets_map ∧
   (DeferredOperationJoinKHR s operation
     r).2.2.swapchain_wrapped_image_handle_map =
     s.swapchain_wrapped_image_handle_map ∧
   (DeferredOperationJoinKHR s operation r).2.2.global_unique_id =
     s.global_unique_id) ∧
  ((GetDeferredOperationResultKHR s operation r).1 = operation ∧
   (GetDeferredOperationResultKHR s operation r).2.1 = r ∧
   (GetDeferredOperationResultKHR s operation r).2.2.unique_id_mapping =
     s.unique_id_mapping ∧
   (GetDeferredOperationResultKHR s operation r).2.2.pool_descriptor_sets_map =
     s.pool_descriptor_sets_map ∧
   (GetDeferredOperationResultKHR s operation
     r).2.2.swapchain_wrapped_image_handle_map =
     s.swapchain_wrapped_image_handle_map ∧
   (GetDeferredOperationResultKHR s operation r).2.2.global_unique_id =
     s.global_unique_id) ∧
  GetSwapchainImagesKHR s handle r imgsOpt = (r, imgsOpt, s) ∧
  DestroySwapchainKHR s handle = (handle, s) ∧
  QueuePresentKHR s queueArg piOpt r drs = (piOpt, r, piOpt, s) ∧
  DestroyDescriptorPool s pool = (pool, s) ∧
  ResetDescriptorPool s pool r = (pool, r, s) ∧
  AllocateDescriptorSets s pool r sets = (sets, s) ∧
  CreateDescriptorUpdateTemplate s ciOpt r tmpl = (r, tmpl, s) ∧
  DestroyDescriptorUpdateTemplate s tmpl = (tmpl, s) ∧
  UpdateDescriptorSetWithTemplate s dset tmpl d =
    some (dset, tmpl, TemplateDataArg.raw d) ∧
  CmdPushDescriptorSetWithTemplateKHR s tmpl layoutArg setN d =
    some (tmpl, layoutArg, setN, TemplateDataArg.raw d) ∧
  CmdPushDescriptorSetWithTemplate2KHR s info =
    some ({ descriptorUpdateTemplate := info.descriptorUpdateTemplate
            layout := info.layout
            setNumber := info.setNumber
            pData := TemplateDataArg.raw info.pData },
          { descriptorUpdateTemplate := info.descriptorUpdateTemplate
            layout := info.layout
            setNumber := info.setNumber
            pData := TemplateDataArg.raw info.pData }) ∧
  CreateRenderPass s rpCI r handle = (r, handle, s)

/-! ## Theorems -/


/-! ### Basic lemmas about the map helpers -/

theorem mapFind_mapErase {β : Type} (m : List (Nat × β)) (k k' : Nat) :
    mapFind (mapErase m k) k' = if k' = k then none else mapFind m k' := by
  induction m with
  | nil => by_cases h : k' = k <;> simp [mapErase, mapFind, h]
  | cons p rest ih =>
    simp only [mapErase]
    by_cases h1 : p.1 = k
    · rw [if_pos h1, ih]
      by_cases h2 : k' = k
      · simp [h2]
      · rw [if_neg h2, if_neg h2]
        simp only [mapFind]
        rw [if_neg (fun hpk : p.1 = k' => h2 (hpk.symm.trans h1))]
    · rw [if_neg h1]
      simp only [mapFind]
      by_cases h2 : p.1 = k'
      · rw [if_pos h2, if_pos h2,
          if_neg (fun hk : k' = k => h1 (h2.trans hk))]
      · rw [if_neg h2, if_neg h2, ih]


theorem mapFind_mapErase_self {β : Type} (m : List (Nat × β)) (k : Nat) :
    mapFind (mapErase m k) k = none := by
  simp [mapFind_mapErase]


theorem mapFind_mapErase_ne {β : Type} (m : List (Nat × β)) {k k' : Nat} (h : k' ≠ k) :
    mapFind (mapErase m k) k' = mapFind m k' := by
  simp [mapFind_mapErase, h]


theorem mapFind_mapSet_self {β : Type} (m : List (Nat × β)) (k : Nat) (v : β) :
    mapFind (mapSet m k v) k = some v := by
  simp [mapSet, mapFind]


theorem mapFind_mapSet_ne {β : Type} (m : List (Nat × β)) {k k' : Nat} (v : β) (h : k' ≠ k) :
    mapFind (mapSet m k v) k' = mapFind m k' := by
  simp only [mapSet, mapFind]
  rw [if_neg (fun hk : k = k' => h hk.symm)]
  exact mapFind_mapErase_ne m h


theorem mapInsertNew_of_absent {β : Type} {m : List (Nat × β)} {k : Nat}
    (h : mapFind m k = none) (v : β) : mapInsertNew m k v = (k, v) :: m := by
  simp [mapInsertNew, h]


theorem mapFind_mapInsertNew_self {β : Type} {m : List (Nat × β)} {k : Nat}
    (h : mapFind m k = none) (v : β) : mapFind (mapInsertNew m k v) k = some v := by
  rw [mapInsertNew_of_absent h]
  simp [mapFind]


theorem mapFind_mapInsertNew_ne {β : Type} (m : List (Nat × β)) (k : Nat) (v : β)
    {k' : Nat} (h : k' ≠ k) : mapFind (mapInsertNew m k v) k' = mapFind m k' := by
  unfold mapInsertNew
  cases hf : mapFind m k with
  | some w => rfl
  | none =>
    simp only [mapFind]
    rw [if_neg (fun hk : k = k' => h hk.symm)]


theorem mapFind_some_mem {β : Type} {m : List (Nat × β)} {k : Nat} {v : β}
    (h : mapFind m k = some v) : (k, v) ∈ m := by
  induction m with
  | nil => simp [mapFind] at h
  | cons p rest ih =>
    simp only [mapFind] at h
    by_cases h1 : p.1 = k
    · rw [if_pos h1] at h
      have hv : p.2 = v := Option.some.inj h
      cases p with
      | mk a b =>
        simp only at h1 hv
        subst h1
        subst hv
        exact List.mem_cons_self _ _
    · rw [if_neg h1] at h
      exact List.mem_cons_of_mem _ (ih h)


theorem mapFind_eraseAll_none {β : Type} {c : Nat} (l : List Nat) :
    ∀ m : List (Nat × β), mapFind m c = none → mapFind (eraseAll m l) c = none := by
  induction l with
  | nil => intro m h; exact h
  | cons y ys ih =>
    intro m h
    simp only [eraseAll]
    apply ih
    rw [mapFind_mapErase]
    by_cases hcy : c = y <;> simp [hcy, h]


theorem mapFind_eraseAll_mem {β : Type} {l : List Nat} {c : Nat} :
    ∀ m : List (Nat × β), c ∈ l → mapFind (eraseAll m l) c = none := by
  induction l with
  | nil => intro m hc; cases hc
  | cons x rest ih =>
    intro m hc
    simp only [eraseAll]
    rcases List.mem_cons.mp hc with h | h
    · subst h
      exact mapFind_eraseAll_none rest _ (mapFind_mapErase_self m c)
    · exact ih _ h


theorem mapFind_eraseAll_not_mem {β : Type} {l : List Nat} {c : Nat} :
    ∀ m : List (Nat × β), c ∉ l → mapFind (eraseAll m l) c = mapFind m c := by
  induction l with
  | nil => intro m _; rfl
  | cons x rest ih =>
    intro m hc
    have hcx : c ≠ x := fun h => hc (by simp [h])
    have hcr : c ∉ rest := fun h => hc (List.mem_cons_of_mem _ h)
    simp only [eraseAll]
    rw [ih _ hcr, mapFind_mapErase_ne m hcx]


theorem WF_find_lt {s : DispatchState} {k : Nat} {v : Nat} (hwf : WF s)
    (h : mapFind s.unique_id_mapping k = some v) : k < s.global_unique_id :=
  hwf.2 _ (mapFind_some_mem h)


theorem WF_find_ge_none {s : DispatchState} {k : Nat} (hwf : WF s)
    (h : s.global_unique_id ≤ k) : mapFind s.unique_id_mapping k = none := by
  cases hf : mapFind s.unique_id_mapping k with
  | none => rfl
  | some v => exact absurd (WF_find_lt hwf hf) (not_lt.mpr h)


theorem wrapNew_fst (s : DispatchState) (r : Nat) :
    (wrapNew s r).1 = s.global_unique_id := rfl


theorem wrapNew_guid (s : DispatchState) (r : Nat) :
    (wrapNew s r).2.global_unique_id = s.global_unique_id + 1 := rfl


theorem wrapNew_mapping_self {s : DispatchState} (hwf : WF s) (r : Nat) :
    mapFind (wrapNew s r).2.unique_id_mapping s.global_unique_id = some r :=
  mapFind_mapInsertNew_self (WF_find_ge_none hwf le_rfl) r


theorem wrapNew_mapping_ne (s : DispatchState) (r : Nat) {k : Nat}
    (h : k ≠ s.global_unique_id) :
    mapFind (wrapNew s r).2.unique_id_mapping k = mapFind s.unique_id_mapping k :=
  mapFind_mapInsertNew_ne _ _ _ h


theorem WF_wrapNew {s : DispatchState} (hwf : WF s) (r : Nat) :
    WF (wrapNew s r).2 := by
  constructor
  · exact Nat.lt_of_lt_of_le hwf.1 (Nat.le_succ _)
  · intro p hp
    have hm : (wrapNew s r).2.unique_id_mapping =
        (s.global_unique_id, r) :: s.unique_id_mapping := by
      show mapInsertNew s.unique_id_mapping s.global_unique_id r = _
      exact mapInsertNew_of_absent (WF_find_ge_none hwf le_rfl) r
    rw [hm] at hp
    rcases List.mem_cons.mp hp with h | h
    · rw [h]
      exact Nat.lt_succ_self _
    · exact Nat.lt_succ_of_lt (hwf.2 _ h)


theorem mem_insertSet_self (x : Nat) (l : List Nat) : x ∈ insertSet x l := by
  unfold insertSet
  by_cases h : x ∈ l <;> simp [h]


theorem mem_insertSet_of_mem (y : Nat) {x : Nat} {l : List Nat} (h : x ∈ l) :
    x ∈ insertSet y l := by
  unfold insertSet
  by_cases hy : y ∈ l <;> simp [hy, h]


theorem not_mem_insertSet {x y : Nat} {l : List Nat} (hxy : x ≠ y) (hl : x ∉ l) :
    x ∉ insertSet y l := by
  unfold insertSet
  by_cases hy : y ∈ l <;> simp [hy, hl, hxy]


/-! ### Frame lemmas for the wrapping loops and closures -/

theorem wrapNew_frame (s : DispatchState) (r : Nat) :
    (wrapNew s r).2.wrap_handles = s.wrap_handles ∧
    (wrapNew s r).2.pool_descriptor_sets_map = s.pool_descriptor_sets_map ∧
    (wrapNew s r).2.swapchain_wrapped_image_handle_map =
      s.swapchain_wrapped_image_handle_map ∧
    (wrapNew s r).2.renderpasses_states = s.renderpasses_states ∧
    (wrapNew s r).2.desc_template_createinfo_map = s.desc_template_createinfo_map ∧
    (wrapNew s r).2.deferred_operation_post_completion =
      s.deferred_operation_post_completion ∧
    (wrapNew s r).2.deferred_operation_post_check = s.deferred_operation_post_check ∧
    (wrapNew s r).2.deferred_operation_pipelines = s.deferred_operation_pipelines ∧
    (wrapNew s r).2.run_log = s.run_log ∧
    (wrapNew s r).2.post_check_log = s.post_check_log :=
  ⟨rfl, rfl, rfl, rfl, rfl, rfl, rfl, rfl, rfl, rfl⟩


theorem wrapList_frame (l : List Nat) : ∀ s : DispatchState,
    (wrapList s l).2.wrap_handles = s.wrap_handles ∧
    (wrapList s l).2.pool_descriptor_sets_map = s.pool_descriptor_sets_map ∧
    (wrapList s l).2.swapchain_wrapped_image_handle_map =
      s.swapchain_wrapped_image_handle_map ∧
    (wrapList s l).2.desc_template_createinfo_map = s.desc_template_createinfo_map := by
  induction l with
  | nil => intro s; exact ⟨rfl, rfl, rfl, rfl⟩
  | cons r rs ih =>
    intro s
    simp only [wrapList]
    exact ih (wrapNew s r).2


theorem wrapList_length (l : List Nat) : ∀ s : DispatchState,
    (wrapList s l).1.length = l.length := by
  induction l with
  | nil => intro s; rfl
  | cons r rs ih =>
    intro s
    simp only [wrapList, List.length_cons]
    rw [ih]


theorem wrapNonNull_frame (l : List Nat) : ∀ s : DispatchState,
    (wrapNonNullHandles s l).2.wrap_handles = s.wrap_handles ∧
    (wrapNonNullHandles s l).2.pool_descriptor_sets_map =
      s.pool_descriptor_sets_map ∧
    (wrapNonNullHandles s l).2.swapchain_wrapped_image_handle_map =
      s.swapchain_wrapped_image_handle_map ∧
    (wrapNonNullHandles s l).2.deferred_operation_post_completion =
      s.deferred_operation_post_completion ∧
    (wrapNonNullHandles s l).2.desc_template_createinfo_map =
      s.desc_template_createinfo_map := by
  induction l with
  | nil => intro s; exact ⟨rfl, rfl, rfl, rfl, rfl⟩
  | cons p ps ih =>
    intro s
    simp only [wrapNonNullHandles]
    by_cases hp : p ≠ 0
    · rw [if_pos hp]
      exact ih (wrapNew s p).2
    · rw [if_neg hp]
      exact ih s


theorem runClosure_run_log (s : DispatchState) (c : DeferClosure) :
    (runClosure s c).run_log = s.run_log ++ [c] := by
  cases c <;> rfl


theorem runClosure_frame (s : DispatchState) (c : DeferClosure) :
    (runClosure s c).wrap_handles = s.wrap_handles ∧
    (runClosure s c).global_unique_id = s.global_unique_id ∧
    (runClosure s c).unique_id_mapping = s.unique_id_mapping ∧
    (runClosure s c).pool_descriptor_sets_map = s.pool_descriptor_sets_map ∧
    (runClosure s c).swapchain_wrapped_image_handle_map =
      s.swapchain_wrapped_image_handle_map ∧
    (runClosure s c).desc_template_createinfo_map =
      s.desc_template_createinfo_map ∧
    (runClosure s c).deferred_operation_post_completion =
      s.deferred_operation_post_completion ∧
    (runClosure s c).deferred_operation_post_check =
      s.deferred_operation_post_check ∧
    (runClosure s c).post_check_log = s.post_check_log := by
  cases c <;> exact ⟨rfl, rfl, rfl, rfl, rfl, rfl, rfl, rfl, rfl⟩


theorem runClosures_run_log (fns : List DeferClosure) : ∀ s : DispatchState,
    (runClosures s fns).run_log = s.run_log ++ fns := by
  induction fns with
  | nil => intro s; simp [runClosures]
  | cons c cs ih =>
    intro s
    simp only [runClosures]
    rw [ih, runClosure_run_log, List.append_assoc]
    rfl


theorem runClosures_frame (fns : List DeferClosure) : ∀ s : DispatchState,
    (runClosures s fns).wrap_handles = s.wrap_handles ∧
    (runClosures s fns).global_unique_id = s.global_unique_id ∧
    (runClosures s fns).unique_id_mapping = s.unique_id_mapping ∧
    (runClosures s fns).pool_descriptor_sets_map = s.pool_descriptor_sets_map ∧
    (runClosures s fns).swapchain_wrapped_image_handle_map =
      s.swapchain_wrapped_image_handle_map ∧
    (runClosures s fns).desc_template_createinfo_map =
      s.desc_template_createinfo_map ∧
    (runClosures s fns).deferred_operation_post_completion =
      s.deferred_operation_post_completion ∧
    (runClosures s fns).deferred_operation_post_check =
      s.deferred_operation_post_check ∧
    (runClosures s fns).post_check_log = s.post_check_log := by
  induction fns with
  | nil => intro s; exact ⟨rfl, rfl, rfl, rfl, rfl, rfl, rfl, rfl, rfl⟩
  | cons c cs ih =>
    intro s
    simp only [runClosures]
    obtain ⟨a1, a2, a3, a4, a5, a6, a7, a8, a9⟩ := runClosure_frame s c
    obtain ⟨b1, b2, b3, b4, b5, b6, b7, b8, b9⟩ := ih (runClosure s c)
    exact ⟨b1.trans a1, b2.trans a2, b3.trans a3, b4.trans a4, b5.trans a5,
      b6.trans a6, b7.trans a7, b8.trans a8, b9.trans a9⟩


theorem unwrapH_congr {s s' : DispatchState}
    (h : s'.unique_id_mapping = s.unique_id_mapping) (x : Nat) :
    unwrapH s' x = unwrapH s x := by
  unfold unwrapH
  rw [h]


theorem wrapNonNull_spec (l : List Nat) : ∀ s : DispatchState, WF s →
    WF (wrapNonNullHandles s l).2 ∧
    s.global_unique_id ≤ (wrapNonNullHandles s l).2.global_unique_id ∧
    (wrapNonNullHandles s l).1.length = l.length ∧
    (∀ k, k < s.global_unique_id →
      mapFind (wrapNonNullHandles s l).2.unique_id_mapping k =
        mapFind s.unique_id_mapping k) ∧
    (∀ k, mapFind (wrapNonNullHandles s l).2.unique_id_mapping k ≠
        mapFind s.unique_id_mapping k →
      s.global_unique_id ≤ k ∧ k ∈ (wrapNonNullHandles s l).1) ∧
    (∀ i, i < l.length →
      (l.getD i 0 = 0 → (wrapNonNullHandles s l).1.getD i 0 = 0) ∧
      (l.getD i 0 ≠ 0 →
        s.global_unique_id ≤ (wrapNonNullHandles s l).1.getD i 0 ∧
        mapFind (wrapNonNullHandles s l).2.unique_id_mapping
          ((wrapNonNullHandles s l).1.getD i 0) = some (l.getD i 0))) := by
  induction l with
  | nil =>
    intro s hwf
    refine ⟨hwf, le_rfl, rfl, fun k _ => rfl, fun k hk => absurd rfl hk, ?_⟩
    intro i hi
    exact absurd hi (by simp)
  | cons p ps ih =>
    intro s hwf
    by_cases hp : p ≠ 0
    · have hred : wrapNonNullHandles s (p :: ps) =
          ((wrapNew s p).1 :: (wrapNonNullHandles (wrapNew s p).2 ps).1,
           (wrapNonNullHandles (wrapNew s p).2 ps).2) := by
        simp only [wrapNonNullHandles]
        rw [if_pos hp]
      have hwf1 : WF (wrapNew s p).2 := WF_wrapNew hwf p
      obtain ⟨ihwf, ihle, ihlen, ihpres, ihchg, ihidx⟩ := ih (wrapNew s p).2 hwf1
      rw [hred]
      dsimp only
      have hguid1 : (wrapNew s p).2.global_unique_id = s.global_unique_id + 1 := rfl
      refine ⟨ihwf, ?_, ?_, ?_, ?_, ?_⟩
      · omega
      · simpa using ihlen
      · intro k hk
        have hk1 : k < (wrapNew s p).2.global_unique_id := by omega
        rw [ihpres k hk1]
        exact wrapNew_mapping_ne s p (by omega)
      · intro k hk
        by_cases hks : k = s.global_unique_id
        · exact ⟨hks ▸ le_rfl, by simp [hks, wrapNew_fst]⟩
        · have hmid : mapFind (wrapNew s p).2.unique_id_mapping k =
              mapFind s.unique_id_mapping k := wrapNew_mapping_ne s p hks
          have hne : mapFind (wrapNonNullHandles (wrapNew s p).2 ps).2.unique_id_mapping k ≠
              mapFind (wrapNew s p).2.unique_id_mapping k := by
            rw [hmid]
            exact hk
          obtain ⟨hge, hmem⟩ := ihchg k hne
          exact ⟨by omega, List.mem_cons_of_mem _ hmem⟩
      · intro i hi
        cases i with
        | zero =>
          refine ⟨fun h0 => absurd h0 hp, fun _ => ?_⟩
          have hsyn : ((wrapNew s p).1 ::
              (wrapNonNullHandles (wrapNew s p).2 ps).1).getD 0 0 =
              s.global_unique_id := rfl
          rw [hsyn]
          refine ⟨le_rfl, ?_⟩
          have hlt : s.global_unique_id < (wrapNew s p).2.global_unique_id := by omega
          rw [ihpres s.global_unique_id hlt]
          exact wrapNew_mapping_self hwf p
        | succ j =>
          have hj : j < ps.length := by simpa using hi
          obtain ⟨hz, hnz⟩ := ihidx j hj
          refine ⟨?_, ?_⟩
          · intro h0
            simpa using hz (by simpa using h0)
          · intro hne0
            have hne0' : ps.getD j 0 ≠ 0 := by simpa using hne0
            obtain ⟨hge, hfind⟩ := hnz hne0'
            constructor
            · have : (((wrapNew s p).1 ::
                  (wrapNonNullHandles (wrapNew s p).2 ps).1).getD (j + 1) 0) =
                  (wrapNonNullHandles (wrapNew s p).2 ps).1.getD j 0 := rfl
              rw [this]
              omega
            · simpa using hfind
    · have hp0 : p = 0 := by omega
      have hred : wrapNonNullHandles s (p :: ps) =
          (p :: (wrapNonNullHandles s ps).1, (wrapNonNullHandles s ps).2) := by
        simp only [wrapNonNullHandles]
        rw [if_neg hp]
      obtain ⟨ihwf, ihle, ihlen, ihpres, ihchg, ihidx⟩ := ih s hwf
      rw [hred]
      dsimp only
      refine ⟨ihwf, ihle, by simpa using ihlen, ihpres, ?_, ?_⟩
      · intro k hk
        obtain ⟨hge, hmem⟩ := ihchg k hk
        exact ⟨hge, List.mem_cons_of_mem _ hmem⟩
      · intro i hi
        cases i with
        | zero => exact ⟨fun _ => hp0, fun hne => absurd hp0 hne⟩
        | succ j =>
          have hj : j < ps.length := by simpa using hi
          obtain ⟨hz, hnz⟩ := ihidx j hj
          refine ⟨fun h0 => by simpa using hz (by simpa using h0), fun hne0 => ?_⟩
          obtain ⟨hge, hfind⟩ := hnz (by simpa using hne0)
          exact ⟨hge, by simpa using hfind⟩


/-- The bridge from the loop specification to the per-entry-point
statements. -/
theorem batchWrapSpec_of_wrap {s : DispatchState} (hwf : WF s) (l : List Nat)
    {s' : DispatchState}
    (hmap : s'.unique_id_mapping = (wrapNonNullHandles s l).2.unique_id_mapping) :
    BatchWrapSpec s l (wrapNonNullHandles s l).1 s' := by
  obtain ⟨_, hle, hlen, hpres, hchg, hidx⟩ := wrapNonNull_spec l s hwf
  refine ⟨hlen, ?_, ?_, ?_⟩
  · intro i hi h0
    exact (hidx i hi).1 h0
  · intro i hi hne
    obtain ⟨hge, hfind⟩ := (hidx i hi).2 hne
    refine ⟨?_, ?_, ?_⟩
    · have := hwf.1
      omega
    · exact WF_find_ge_none hwf hge
    · rw [hmap]
      exact hfind
  · intro k hk
    rw [hmap] at hk
    obtain ⟨hge, hmem⟩ := hchg k hk
    have := hwf.1
    exact ⟨by omega, hmem⟩


theorem mem_insertSet_iff {x y : Nat} {l : List Nat} :
    x ∈ insertSet y l ↔ x = y ∨ x ∈ l := by
  unfold insertSet
  by_cases hy : y ∈ l
  · simp only [hy, if_true]
    constructor
    · exact fun h => Or.inr h
    · rintro (h | h)
      · exact h ▸ hy
      · exact h
  · simp only [hy, if_false, List.mem_append, List.mem_singleton]
    exact Or.comm


theorem unwrapH_wrapNew {s : DispatchState} (hwf : WF s) (r : Nat) :
    unwrapH (wrapNew s r).2 (wrapNew s r).1 = r := by
  unfold unwrapH
  rw [wrapNew_fst, if_neg (Nat.pos_iff_ne_zero.mp hwf.1),
    wrapNew_mapping_self hwf r]


/-- Claim C2: for every real handle r, Unwrap applied to the synthetic
handle returned by wrapping r yields r back, and the synthetic handle is
distinct from every other currently-live synthetic handle (the Registry
holds no entry for it at the moment of the wrap); instantiated both for
the bare wrap operation and for the WrapNew call performed by
CreateRenderPass on success. -/
theorem C2_wrap_roundtrip_fresh (s : DispatchState) (r : Nat)
    (ci : RenderPassCreateInfo) (drp : Nat)
    (hwf : WF s) (hflag : s.wrap_handles = true) :
    (unwrapH (wrapNew s r).2 (wrapNew s r).1 = r ∧
     mapFind s.unique_id_mapping (wrapNew s r).1 = none) ∧
    (unwrapH (CreateRenderPass s ci VK_SUCCESS drp).2.2
        (CreateRenderPass s ci VK_SUCCESS drp).2.1 = drp ∧
     mapFind s.unique_id_mapping
       (CreateRenderPass s ci VK_SUCCESS drp).2.1 = none) := by
  refine ⟨⟨unwrapH_wrapNew hwf r, WF_find_ge_none hwf le_rfl⟩, ?_⟩
  have hred : CreateRenderPass s ci VK_SUCCESS drp =
      (VK_SUCCESS,
       (wrapNew { s with renderpasses_states :=
          updateCreateRenderPassState s.renderpasses_states ci drp } drp).1,
       (wrapNew { s with renderpasses_states :=
          updateCreateRenderPassState s.renderpasses_states ci drp } drp).2) := by
    simp [CreateRenderPass, hflag]
  rw [hred]
  have hwf1 : WF { s with renderpasses_states :=
      updateCreateRenderPassState s.renderpasses_states ci drp } := hwf
  exact ⟨unwrapH_wrapNew hwf1 drp, WF_find_ge_none hwf le_rfl⟩


/-- Witness for C2 at a concrete state and real handles. -/
theorem C2_wrap_roundtrip_fresh_witness :
    (WF exRegState ∧ exRegState.wrap_handles = true) ∧
    ((unwrapH (wrapNew exRegState 1234).2 (wrapNew exRegState 1234).1 = 1234 ∧
      mapFind exRegState.unique_id_mapping (wrapNew exRegState 1234).1 = none) ∧
     (unwrapH (CreateRenderPass exRegState ⟨[]⟩ VK_SUCCESS 55).2.2
         (CreateRenderPass exRegState ⟨[]⟩ VK_SUCCESS 55).2.1 = 55 ∧
      mapFind exRegState.unique_id_mapping
        (CreateRenderPass exRegState ⟨[]⟩ VK_SUCCESS 55).2.1 = none)) :=
  ⟨⟨by decide, rfl⟩,
   C2_wrap_roundtrip_fresh exRegState 1234 ⟨[]⟩ 55 (by decide) rfl⟩


/-- Claim C1: destroying a container (descriptor pool or swapchain)
erases the Registry entry of every child recorded in its secondary
index, removes the secondary-index entry of the container, erases the
container Registry entry by an atomic pop, and forwards the popped real
handle (a null handle when the container was never wrapped) to the
driver; afterwards a lookup of any child returns NotFound. -/
theorem C1_container_destroy_cascade (s : DispatchState) (container : Nat)
    (hflag : s.wrap_handles = true) :
    ((∀ c ∈ (mapFind s.pool_descriptor_sets_map container).getD [],
        mapFind (DestroyDescriptorPool s container).2.unique_id_mapping c = none) ∧
     mapFind (DestroyDescriptorPool s container).2.pool_descriptor_sets_map
       container = none ∧
     mapFind (DestroyDescriptorPool s container).2.unique_id_mapping
       container = none ∧
     (container ∉ (mapFind s.pool_descriptor_sets_map container).getD [] →
       (DestroyDescriptorPool s container).1 =
         (mapFind s.unique_id_mapping container).getD 0)) ∧
    ((∀ c ∈ (mapFind s.swapchain_wrapped_image_handle_map container).getD [],
        mapFind (DestroySwapchainKHR s container).2.unique_id_mapping c = none) ∧
     mapFind (DestroySwapchainKHR s container).2.swapchain_wrapped_image_handle_map
       container = none ∧
     mapFind (DestroySwapchainKHR s container).2.unique_id_mapping
       container = none ∧
     (container ∉ (mapFind s.swapchain_wrapped_image_handle_map container).getD [] →
       (DestroySwapchainKHR s container).1 =
         (mapFind s.unique_id_mapping container).getD 0)) := by
  constructor
  · have hred : DestroyDescriptorPool s container =
        ((mapFind (eraseAll s.unique_id_mapping
            ((mapFind s.pool_descriptor_sets_map container).getD [])) container).getD 0,
         { s with
           unique_id_mapping := mapErase (eraseAll s.unique_id_mapping
             ((mapFind s.pool_descriptor_sets_map container).getD [])) container,
           pool_descriptor_sets_map :=
             mapErase s.pool_descriptor_sets_map container }) := by
      simp [DestroyDescriptorPool, hflag, mapPop]
    rw [hred]
    refine ⟨?_, mapFind_mapErase_self _ _, mapFind_mapErase_self _ _, ?_⟩
    · intro c hc
      by_cases hcc : c = container
      · exact hcc ▸ mapFind_mapErase_self _ _
      · rw [mapFind_mapErase_ne _ hcc]
        exact mapFind_eraseAll_mem _ hc
    · intro hnm
      rw [mapFind_eraseAll_not_mem _ hnm]
  · have hred : DestroySwapchainKHR s container =
        ((mapFind (eraseAll s.unique_id_mapping
            ((mapFind s.swapchain_wrapped_image_handle_map container).getD []))
            container).getD 0,
         { s with
           unique_id_mapping := mapErase (eraseAll s.unique_id_mapping
             ((mapFind s.swapchain_wrapped_image_handle_map container).getD []))
             container,
           swapchain_wrapped_image_handle_map :=
             mapErase s.swapchain_wrapped_image_handle_map container }) := by
      simp [DestroySwapchainKHR, hflag, mapPop]
    rw [hred]
    refine ⟨?_, mapFind_mapErase_self _ _, mapFind_mapErase_self _ _, ?_⟩
    · intro c hc
      by_cases hcc : c = container
      · exact hcc ▸ mapFind_mapErase_self _ _
      · rw [mapFind_mapErase_ne _ hcc]
        exact mapFind_eraseAll_mem _ hc
    · intro hnm
      rw [mapFind_eraseAll_not_mem _ hnm]


/-- Witness for C1 at a concrete state. -/
theorem C1_container_destroy_cascade_witness :
    exPoolState.wrap_handles = true ∧
    (((∀ c ∈ (mapFind exPoolState.pool_descriptor_sets_map 10).getD [],
        mapFind (DestroyDescriptorPool exPoolState 10).2.unique_id_mapping c = none) ∧
      mapFind (DestroyDescriptorPool exPoolState 10).2.pool_descriptor_sets_map
        10 = none ∧
      mapFind (DestroyDescriptorPool exPoolState 10).2.unique_id_mapping 10 = none ∧
      (10 ∉ (mapFind exPoolState.pool_descriptor_sets_map 10).getD [] →
        (DestroyDescriptorPool exPoolState 10).1 =
          (mapFind exPoolState.unique_id_mapping 10).getD 0)) ∧
     ((∀ c ∈ (mapFind exPoolState.swapchain_wrapped_image_handle_map 10).getD [],
        mapFind (DestroySwapchainKHR exPoolState 10).2.unique_id_mapping c = none) ∧
      mapFind (DestroySwapchainKHR exPoolState 10).2.swapchain_wrapped_image_handle_map
        10 = none ∧
      mapFind (DestroySwapchainKHR exPoolState 10).2.unique_id_mapping 10 = none ∧
      (10 ∉ (mapFind exPoolState.swapchain_wrapped_image_handle_map 10).getD [] →
        (DestroySwapchainKHR exPoolState 10).1 =
          (mapFind exPoolState.unique_id_mapping 10).getD 0))) :=
  ⟨rfl, C1_container_destroy_cascade exPoolState 10 rfl⟩


theorem wrapSetsIntoPool_spec (l : List Nat) :
    ∀ (s : DispatchState) (pool : Nat), WF s →
    WF (wrapSetsIntoPool s pool l).2 ∧
    s.global_unique_id ≤ (wrapSetsIntoPool s pool l).2.global_unique_id ∧
    (wrapSetsIntoPool s pool l).2.wrap_handles = s.wrap_handles ∧
    (∀ k, k < s.global_unique_id →
      mapFind (wrapSetsIntoPool s pool l).2.unique_id_mapping k =
        mapFind s.unique_id_mapping k) ∧
    (∀ x ∈ (wrapSetsIntoPool s pool l).1, s.global_unique_id ≤ x) ∧
    (∀ y, y ∈ (mapFind (wrapSetsIntoPool s pool l).2.pool_descriptor_sets_map
        pool).getD [] ↔
      y ∈ (mapFind s.pool_descriptor_sets_map pool).getD [] ∨
      y ∈ (wrapSetsIntoPool s pool l).1) := by
  induction l with
  | nil =>
    intro s pool hwf
    refine ⟨hwf, le_rfl, rfl, fun k _ => rfl, fun x hx => absurd hx (List.not_mem_nil x), ?_⟩
    intro y
    show y ∈ (mapFind s.pool_descriptor_sets_map pool).getD [] ↔
      y ∈ (mapFind s.pool_descriptor_sets_map pool).getD [] ∨ y ∈ ([] : List Nat)
    simp
  | cons r rs ih =>
    intro s pool hwf
    have hred : wrapSetsIntoPool s pool (r :: rs) =
        ((wrapNew s r).1 ::
          (wrapSetsIntoPool
            { (wrapNew s r).2 with
              pool_descriptor_sets_map :=
                mapSet (wrapNew s r).2.pool_descriptor_sets_map pool
                  (insertSet (wrapNew s r).1
                    ((mapFind (wrapNew s r).2.pool_descriptor_sets_map
                      pool).getD [])) } pool rs).1,
         (wrapSetsIntoPool
            { (wrapNew s r).2 with
              pool_descriptor_sets_map :=
                mapSet (wrapNew s r).2.pool_descriptor_sets_map pool
                  (insertSet (wrapNew s r).1
                    ((mapFind (wrapNew s r).2.pool_descriptor_sets_map
                      pool).getD [])) } pool rs).2) := rfl
    rw [hred]
    dsimp only
    set s2 : DispatchState :=
      { (wrapNew s r).2 with
        pool_descriptor_sets_map :=
          mapSet (wrapNew s r).2.pool_descriptor_sets_map pool
            (insertSet (wrapNew s r).1
              ((mapFind (wrapNew s r).2.pool_descriptor_sets_map pool).getD [])) }
      with hs2
    have hwf2 : WF s2 := WF_wrapNew hwf r
    have hguid2 : s2.global_unique_id = s.global_unique_id + 1 := rfl
    obtain ⟨ihwf, ihle, ihflag, ihpres, ihout, ihmem⟩ := ih s2 pool hwf2
    refine ⟨ihwf, by omega, ihflag, ?_, ?_, ?_⟩
    · intro k hk
      have hk2 : k < s2.global_unique_id := by omega
      rw [ihpres k hk2]
      exact wrapNew_mapping_ne s r (by omega)
    · intro x hx
      rcases List.mem_cons.mp hx with h | h
      · rw [h, wrapNew_fst]
      · have := ihout x h
        omega
    · intro y
      rw [ihmem y]
      have hpool2 : (mapFind s2.pool_descriptor_sets_map pool).getD [] =
          insertSet (wrapNew s r).1
            ((mapFind s.pool_descriptor_sets_map pool).getD []) := by
        rw [hs2]
        dsimp only
        rw [mapFind_mapSet_self]
        rfl
      rw [hpool2]
      constructor
      · rintro (h | h)
        · rcases mem_insertSet_iff.mp h with h1 | h1
          · exact Or.inr (h1 ▸ List.mem_cons_self _ _)
          · exact Or.inl h1
        · exact Or.inr (List.mem_cons_of_mem _ h)
      · rintro (h | h)
        · exact Or.inl (mem_insertSet_iff.mpr (Or.inr h))
        · rcases List.mem_cons.mp h with h1 | h1
          · exact Or.inl (mem_insertSet_iff.mpr (Or.inl h1))
          · exact Or.inr h1


/-- Claim C3: after a successful ResetDescriptorPool on a pool from which
descriptor sets were allocated and recorded by AllocateDescriptorSets,
the secondary index of the pool is empty, Registry lookups of every
allocated set return NotFound, and the pool Registry entry is unchanged
and still valid; a failed driver reset removes nothing. -/
theorem C3_reset_descriptor_pool (s : DispatchState) (P rp : Nat)
    (realSets : List Nat)
    (hwf : WF s) (hflag : s.wrap_handles = true)
    (hP : mapFind s.unique_id_mapping P = some rp)
    (hnc : P ∉ (mapFind s.pool_descriptor_sets_map P).getD []) :
    mapFind (ResetDescriptorPool
      (AllocateDescriptorSets s P VK_SUCCESS realSets).2 P
      VK_SUCCESS).2.2.pool_descriptor_sets_map P = some [] ∧
    (∀ a ∈ (AllocateDescriptorSets s P VK_SUCCESS realSets).1,
      mapFind (ResetDescriptorPool
        (AllocateDescriptorSets s P VK_SUCCESS realSets).2 P
        VK_SUCCESS).2.2.unique_id_mapping a = none) ∧
    mapFind (ResetDescriptorPool
      (AllocateDescriptorSets s P VK_SUCCESS realSets).2 P
      VK_SUCCESS).2.2.unique_id_mapping P = some rp ∧
    (∀ r : Int, r ≠ VK_SUCCESS →
      (ResetDescriptorPool (AllocateDescriptorSets s P VK_SUCCESS realSets).2
        P r).2.2 = (AllocateDescriptorSets s P VK_SUCCESS realSets).2) := by
  set s0 : DispatchState :=
    { s with
      pool_descriptor_sets_map :=
        mapSet s.pool_descriptor_sets_map P
          ((mapFind s.pool_descriptor_sets_map P).getD []) } with hs0
  have halloc : AllocateDescriptorSets s P VK_SUCCESS realSets =
      wrapSetsIntoPool s0 P realSets := by
    simp [AllocateDescriptorSets, hflag, hs0]
  have hwf0 : WF s0 := hwf
  have hpool0 : (mapFind s0.pool_descriptor_sets_map P).getD [] =
      (mapFind s.pool_descriptor_sets_map P).getD [] := by
    rw [hs0]
    dsimp only
    rw [mapFind_mapSet_self]
    rfl
  obtain ⟨awf, ale, aflag, apres, aout, amem⟩ :=
    wrapSetsIntoPool_spec realSets s0 P hwf0
  have hPlt : P < s.global_unique_id := WF_find_lt hwf hP
  have hg0 : s0.global_unique_id = s.global_unique_id := rfl
  have haflag : (wrapSetsIntoPool s0 P realSets).2.wrap_handles = true := by
    rw [aflag]
    exact hflag
  have hamapP : mapFind (wrapSetsIntoPool s0 P realSets).2.unique_id_mapping P =
      some rp := by
    rw [apres P hPlt]
    exact hP
  have hPnotch : P ∉ (mapFind (wrapSetsIntoPool
      s0 P realSets).2.pool_descriptor_sets_map P).getD [] := by
    intro hmem
    rcases (amem P).mp hmem with h | h
    · rw [hpool0] at h
      exact hnc h
    · exact absurd (aout P h) (by omega)
  rw [halloc]
  have hreset : ResetDescriptorPool (wrapSetsIntoPool s0 P realSets).2 P
      VK_SUCCESS =
      (unwrapH (wrapSetsIntoPool s0 P realSets).2 P, VK_SUCCESS,
       { (wrapSetsIntoPool s0 P realSets).2 with
         unique_id_mapping :=
           eraseAll (wrapSetsIntoPool s0 P realSets).2.unique_id_mapping
             ((mapFind (wrapSetsIntoPool
               s0 P realSets).2.pool_descriptor_sets_map P).getD []),
         pool_descriptor_sets_map :=
           mapSet (wrapSetsIntoPool s0 P realSets).2.pool_descriptor_sets_map
             P [] }) := by
    simp [ResetDescriptorPool, haflag]
  rw [hreset]
  dsimp only
  refine ⟨mapFind_mapSet_self _ _ _, ?_, ?_, ?_⟩
  · intro a ha
    exact mapFind_eraseAll_mem _ ((amem a).mpr (Or.inr ha))
  · rw [mapFind_eraseAll_not_mem _ hPnotch]
    exact hamapP
  · intro r hr
    simp [ResetDescriptorPool, haflag, hr]


/-- Witness for C3 at a concrete state: pool 10 (real handle 77) with a
prior child 5, two sets allocated from driver handles 201 and 202, then a
successful reset. -/
theorem C3_reset_descriptor_pool_witness :
    (WF exPoolState ∧ exPoolState.wrap_handles = true ∧
     mapFind exPoolState.unique_id_mapping 10 = some 77 ∧
     10 ∉ (mapFind exPoolState.pool_descriptor_sets_map 10).getD []) ∧
    (mapFind (ResetDescriptorPool
      (AllocateDescriptorSets exPoolState 10 VK_SUCCESS [201, 202]).2 10
      VK_SUCCESS).2.2.pool_descriptor_sets_map 10 = some [] ∧
    (∀ a ∈ (AllocateDescriptorSets exPoolState 10 VK_SUCCESS [201, 202]).1,
      mapFind (ResetDescriptorPool
        (AllocateDescriptorSets exPoolState 10 VK_SUCCESS [201, 202]).2 10
        VK_SUCCESS).2.2.unique_id_mapping a = none) ∧
    mapFind (ResetDescriptorPool
      (AllocateDescriptorSets exPoolState 10 VK_SUCCESS [201, 202]).2 10
      VK_SUCCESS).2.2.unique_id_mapping 10 = some 77 ∧
    (∀ r : Int, r ≠ VK_SUCCESS →
      (ResetDescriptorPool
        (AllocateDescriptorSets exPoolState 10 VK_SUCCESS [201, 202]).2
        10 r).2.2 =
        (AllocateDescriptorSets exPoolState 10 VK_SUCCESS [201, 202]).2)) :=
  ⟨⟨by decide, rfl, by decide, by decide⟩,
   C3_reset_descriptor_pool exPoolState 10 77 [201, 202] (by decide) rfl
     (by decide) (by decide)⟩


/-- Claim C4: for every batched pipeline-creation call, exactly the
output slots holding a non-null handle after the driver call are wrapped
with a fresh Registry entry, null slots stay null with no Registry entry,
and the only Registry keys touched are the fresh handles of the non-null
slots (BatchWrapSpec), for all four batched entry points. -/
theorem C4_partial_batch_wrap (s : DispatchState) (pipelineCache dopArg : Nat)
    (gInfos : List GraphicsPipelineCreateInfo)
    (cInfos : List ComputePipelineCreateInfo)
    (nInfos : List RayTracingPipelineCreateInfoNV)
    (kInfos : List RayTracingPipelineCreateInfoKHR)
    (res : Int) (driverPipelines : List Nat)
    (hwf : WF s) (hflag : s.wrap_handles = true) :
    BatchWrapSpec s driverPipelines
      (CreateGraphicsPipelines s pipelineCache gInfos res driverPipelines).2.2.1
      (CreateGraphicsPipelines s pipelineCache gInfos res driverPipelines).2.2.2 ∧
    BatchWrapSpec s driverPipelines
      (CreateComputePipelines s pipelineCache cInfos res driverPipelines).2.2.1
      (CreateComputePipelines s pipelineCache cInfos res driverPipelines).2.2.2 ∧
    BatchWrapSpec s driverPipelines
      (CreateRayTracingPipelinesNV s pipelineCache nInfos res driverPipelines).2.2.1
      (CreateRayTracingPipelinesNV s pipelineCache nInfos res driverPipelines).2.2.2 ∧
    BatchWrapSpec s driverPipelines
      (CreateRayTracingPipelinesKHR s dopArg pipelineCache kInfos res
        driverPipelines).2.2.1
      (CreateRayTracingPipelinesKHR s dopArg pipelineCache kInfos res
        driverPipelines).2.2.2 := by
  refine ⟨?_, ?_, ?_, ?_⟩
  · have hout : (CreateGraphicsPipelines s pipelineCache gInfos res
        driverPipelines).2.2.1 = (wrapNonNullHandles s driverPipelines).1 := by
      simp [CreateGraphicsPipelines, hflag]
    have hmap : (CreateGraphicsPipelines s pipelineCache gInfos res
        driverPipelines).2.2.2.unique_id_mapping =
        (wrapNonNullHandles s driverPipelines).2.unique_id_mapping := by
      simp [CreateGraphicsPipelines, hflag]
    rw [hout]
    exact batchWrapSpec_of_wrap hwf driverPipelines hmap
  · have hout : (CreateComputePipelines s pipelineCache cInfos res
        driverPipelines).2.2.1 = (wrapNonNullHandles s driverPipelines).1 := by
      simp [CreateComputePipelines, hflag]
    have hmap : (CreateComputePipelines s pipelineCache cInfos res
        driverPipelines).2.2.2.unique_id_mapping =
        (wrapNonNullHandles s driverPipelines).2.unique_id_mapping := by
      simp [CreateComputePipelines, hflag]
    rw [hout]
    exact batchWrapSpec_of_wrap hwf driverPipelines hmap
  · have hout : (CreateRayTracingPipelinesNV s pipelineCache nInfos res
        driverPipelines).2.2.1 = (wrapNonNullHandles s driverPipelines).1 := by
      simp [CreateRayTracingPipelinesNV, hflag]
    have hmap : (CreateRayTracingPipelinesNV s pipelineCache nInfos res
        driverPipelines).2.2.2.unique_id_mapping =
        (wrapNonNullHandles s driverPipelines).2.unique_id_mapping := by
      simp [CreateRayTracingPipelinesNV, hflag]
    rw [hout]
    exact batchWrapSpec_of_wrap hwf driverPipelines hmap
  · have hout : (CreateRayTracingPipelinesKHR s dopArg pipelineCache kInfos res
        driverPipelines).2.2.1 = (wrapNonNullHandles s driverPipelines).1 := by
      simp only [CreateRayTracingPipelinesKHR, hflag, if_true]
      split <;> rfl
    have hmap : (CreateRayTracingPipelinesKHR s dopArg pipelineCache kInfos res
        driverPipelines).2.2.2.unique_id_mapping =
        (wrapNonNullHandles s driverPipelines).2.unique_id_mapping := by
      simp only [CreateRayTracingPipelinesKHR, hflag, if_true]
      split <;> rfl
    rw [hout]
    exact batchWrapSpec_of_wrap hwf driverPipelines hmap


/-- Witness for C4: a three-element batch where the driver failed the
middle element, as in the spec scenario. -/
theorem C4_partial_batch_wrap_witness :
    (WF exRegState ∧ exRegState.wrap_handles = true) ∧
    (BatchWrapSpec exRegState [11, 0, 12]
      (CreateGraphicsPipelines exRegState 0 [] VK_SUCCESS [11, 0, 12]).2.2.1
      (CreateGraphicsPipelines exRegState 0 [] VK_SUCCESS [11, 0, 12]).2.2.2 ∧
    BatchWrapSpec exRegState [11, 0, 12]
      (CreateComputePipelines exRegState 0 [] VK_SUCCESS [11, 0, 12]).2.2.1
      (CreateComputePipelines exRegState 0 [] VK_SUCCESS [11, 0, 12]).2.2.2 ∧
    BatchWrapSpec exRegState [11, 0, 12]
      (CreateRayTracingPipelinesNV exRegState 0 [] VK_SUCCESS [11, 0, 12]).2.2.1
      (CreateRayTracingPipelinesNV exRegState 0 [] VK_SUCCESS [11, 0, 12]).2.2.2 ∧
    BatchWrapSpec exRegState [11, 0, 12]
      (CreateRayTracingPipelinesKHR exRegState 0 0 [] VK_SUCCESS
        [11, 0, 12]).2.2.1
      (CreateRayTracingPipelinesKHR exRegState 0 0 [] VK_SUCCESS
        [11, 0, 12]).2.2.2) :=
  ⟨⟨by decide, rfl⟩,
   C4_partial_batch_wrap exRegState 0 0 [] [] [] [] VK_SUCCESS [11, 0, 12]
     (by decide) rfl⟩


/-- Claim C9: repeated successful GetSwapchainImagesKHR calls are stable:
the wrapped image handle at every index common to two calls is the same,
because recorded images are served from the ordered per-swapchain list,
and when the second call reports no more images than the first, no new
wrap and no Registry insertion happens. -/
theorem C9_swapchain_images_stable (s : DispatchState) (sc : Nat)
    (imgs1 imgs2 : List Nat) (r2 : Int)
    (hflag : s.wrap_handles = true)
    (h1 : 0 < imgs1.length) (h2 : 0 < imgs2.length)
    (hr2 : r2 = VK_SUCCESS ∨ r2 = VK_INCOMPLETE) :
    ∃ out1 out2,
      (GetSwapchainImagesKHR s sc VK_SUCCESS (some imgs1)).2.1 = some out1 ∧
      (GetSwapchainImagesKHR
        (GetSwapchainImagesKHR s sc VK_SUCCESS (some imgs1)).2.2 sc r2
        (some imgs2)).2.1 = some out2 ∧
      out2.take (min imgs1.length imgs2.length) =
        out1.take (min imgs1.length imgs2.length) ∧
      (imgs2.length ≤ imgs1.length →
        (GetSwapchainImagesKHR
          (GetSwapchainImagesKHR s sc VK_SUCCESS (some imgs1)).2.2 sc r2
          (some imgs2)).2.2.unique_id_mapping =
          (GetSwapchainImagesKHR s sc VK_SUCCESS
            (some imgs1)).2.2.unique_id_mapping ∧
        (GetSwapchainImagesKHR
          (GetSwapchainImagesKHR s sc VK_SUCCESS (some imgs1)).2.2 sc r2
          (some imgs2)).2.2.global_unique_id =
          (GetSwapchainImagesKHR s sc VK_SUCCESS
            (some imgs1)).2.2.global_unique_id) := by
  set ex0 : List Nat := (mapFind s.swapchain_wrapped_image_handle_map sc).getD []
    with hex0
  set w1 := wrapList s (imgs1.drop ex0.length) with hw1
  set full1 : List Nat := ex0 ++ w1.1 with hfull1
  set s1 : DispatchState :=
    { w1.2 with
      swapchain_wrapped_image_handle_map :=
        mapSet w1.2.swapchain_wrapped_image_handle_map sc full1 } with hs1
  have hc1 : GetSwapchainImagesKHR s sc VK_SUCCESS (some imgs1) =
      (VK_SUCCESS, some (full1.take imgs1.length), s1) := by
    simp [GetSwapchainImagesKHR, hflag, h1, VK_SUCCESS, VK_INCOMPLETE]
  have hfull1len : imgs1.length ≤ full1.length := by
    rw [hfull1]
    have := wrapList_length (imgs1.drop ex0.length) s
    rw [← hw1] at this
    simp only [List.length_append, this, List.length_drop]
    omega
  have hw1flag : w1.2.wrap_handles = true := by
    rw [hw1, (wrapList_frame _ _).1]
    exact hflag
  have hs1flag : s1.wrap_handles = true := hw1flag
  have hs1pool : (mapFind s1.swapchain_wrapped_image_handle_map sc).getD [] =
      full1 := by
    rw [hs1]
    show (mapFind (mapSet w1.2.swapchain_wrapped_image_handle_map sc full1)
      sc).getD [] = full1
    rw [mapFind_mapSet_self]
    rfl
  have hdrop : imgs2.length ≤ imgs1.length → imgs2.drop full1.length = [] := by
    intro hle
    exact List.drop_eq_nil_of_le (by omega)
  have hc2 : GetSwapchainImagesKHR s1 sc r2 (some imgs2) =
      (r2, some ((full1 ++ (wrapList s1 (imgs2.drop full1.length)).1).take
        imgs2.length),
       { (wrapList s1 (imgs2.drop full1.length)).2 with
         swapchain_wrapped_image_handle_map :=
           mapSet (wrapList s1
             (imgs2.drop full1.length)).2.swapchain_wrapped_image_handle_map sc
             (full1 ++ (wrapList s1 (imgs2.drop full1.length)).1) }) := by
    rcases hr2 with h | h <;>
      simp [h, GetSwapchainImagesKHR, hw1flag, h2, hs1pool, VK_SUCCESS,
        VK_INCOMPLETE]
  rw [hc1]
  dsimp only
  rw [hc2]
  dsimp only
  refine ⟨full1.take imgs1.length,
    (full1 ++ (wrapList s1 (imgs2.drop full1.length)).1).take imgs2.length,
    rfl, rfl, ?_, ?_⟩
  · rw [List.take_take, List.take_take]
    have hm1 : min (min imgs1.length imgs2.length) imgs2.length =
        min imgs1.length imgs2.length := by omega
    have hm2 : min (min imgs1.length imgs2.length) imgs1.length =
        min imgs1.length imgs2.length := by omega
    rw [hm1, hm2]
    exact List.take_append_of_le_length (by omega)
  · intro hle
    rw [hdrop hle]
    constructor <;> rfl


/-- Witness for C9: two calls reporting three and then two images. -/
theorem C9_swapchain_images_stable_witness :
    (exSwapState.wrap_handles = true ∧ 0 < ([301, 302, 303] : List Nat).length ∧
     0 < ([301, 302] : List Nat).length ∧
     (VK_SUCCESS = VK_SUCCESS ∨ VK_SUCCESS = VK_INCOMPLETE)) ∧
    (∃ out1 out2,
      (GetSwapchainImagesKHR exSwapState 20 VK_SUCCESS
        (some [301, 302, 303])).2.1 = some out1 ∧
      (GetSwapchainImagesKHR
        (GetSwapchainImagesKHR exSwapState 20 VK_SUCCESS
          (some [301, 302, 303])).2.2 20 VK_SUCCESS
        (some [301, 302])).2.1 = some out2 ∧
      out2.take (min ([301, 302, 303] : List Nat).length
        ([301, 302] : List Nat).length) =
        out1.take (min ([301, 302, 303] : List Nat).length
          ([301, 302] : List Nat).length) ∧
      (([301, 302] : List Nat).length ≤ ([301, 302, 303] : List Nat).length →
        (GetSwapchainImagesKHR
          (GetSwapchainImagesKHR exSwapState 20 VK_SUCCESS
            (some [301, 302, 303])).2.2 20 VK_SUCCESS
          (some [301, 302])).2.2.unique_id_mapping =
          (GetSwapchainImagesKHR exSwapState 20 VK_SUCCESS
            (some [301, 302, 303])).2.2.unique_id_mapping ∧
        (GetSwapchainImagesKHR
          (GetSwapchainImagesKHR exSwapState 20 VK_SUCCESS
            (some [301, 302, 303])).2.2 20 VK_SUCCESS
          (some [301, 302])).2.2.global_unique_id =
          (GetSwapchainImagesKHR exSwapState 20 VK_SUCCESS
            (some [301, 302, 303])).2.2.global_unique_id)) :=
  ⟨⟨rfl, by decide, by decide, Or.inl rfl⟩,
   C9_swapchain_images_stable exSwapState 20 [301, 302, 303] [301, 302]
     VK_SUCCESS rfl (by decide) (by decide) (Or.inl rfl)⟩


theorem opKeyOf_congr {s s' : DispatchState}
    (hw : s'.wrap_handles = s.wrap_handles)
    (hm : s'.unique_id_mapping = s.unique_id_mapping) (x : Nat) :
    opKeyOf s' x = opKeyOf s x := by
  unfold opKeyOf
  rw [hw, unwrapH_congr hm]


/-- When the driver call returns success and completion closures are
queued for the operation, the join pops them and runs them all. -/
theorem join_found_desc {s : DispatchState} {operation : Nat}
    {fns : List DeferClosure}
    (h : mapFind s.deferred_operation_post_completion (opKeyOf s operation) =
      some fns) :
    (DeferredOperationJoinKHR s operation VK_SUCCESS).2.2.run_log =
      s.run_log ++ fns ∧
    (DeferredOperationJoinKHR s operation
      VK_SUCCESS).2.2.deferred_operation_post_completion =
      mapErase s.deferred_operation_post_completion (opKeyOf s operation) ∧
    (DeferredOperationJoinKHR s operation VK_SUCCESS).2.2.wrap_handles =
      s.wrap_handles ∧
    (DeferredOperationJoinKHR s operation VK_SUCCESS).2.2.unique_id_mapping =
      s.unique_id_mapping := by
  have hred : (DeferredOperationJoinKHR s operation VK_SUCCESS).2.2 =
      runClosures
        { s with deferred_operation_post_completion :=
            mapErase s.deferred_operation_post_completion (opKeyOf s operation) }
        fns := by
    simp [DeferredOperationJoinKHR, mapPop, h]
  rw [hred]
  obtain ⟨f1, _, f3, _, _, _, f7, _, _⟩ := runClosures_frame fns
    { s with deferred_operation_post_completion :=
        mapErase s.deferred_operation_post_completion (opKeyOf s operation) }
  exact ⟨runClosures_run_log fns _, f7, f1, f3⟩


theorem join_missing_state {s : DispatchState} {operation : Nat}
    (h : mapFind s.deferred_operation_post_completion (opKeyOf s operation) =
      none) :
    (DeferredOperationJoinKHR s operation VK_SUCCESS).2.2 = s := by
  simp [DeferredOperationJoinKHR, mapPop, h]


/-- A successful query with no queued completion closures leaves the
completion log untouched (only the post-check phase may run). -/
theorem postCheckPhase_frame (s1 : DispatchState) (op : Nat) :
    (postCheckPhase s1 op).run_log = s1.run_log ∧
    (postCheckPhase s1 op).deferred_operation_post_completion =
      s1.deferred_operation_post_completion ∧
    (postCheckPhase s1 op).wrap_handles = s1.wrap_handles ∧
    (postCheckPhase s1 op).unique_id_mapping = s1.unique_id_mapping ∧
    (postCheckPhase s1 op).pool_descriptor_sets_map =
      s1.pool_descriptor_sets_map ∧
    (postCheckPhase s1 op).swapchain_wrapped_image_handle_map =
      s1.swapchain_wrapped_image_handle_map ∧
    (postCheckPhase s1 op).desc_template_createinfo_map =
      s1.desc_template_createinfo_map ∧
    (postCheckPhase s1 op).global_unique_id = s1.global_unique_id := by
  unfold postCheckPhase
  dsimp only
  split <;> exact ⟨rfl, rfl, rfl, rfl, rfl, rfl, rfl, rfl⟩


theorem query_missing_run_log {s : DispatchState} {operation : Nat}
    (h : mapFind s.deferred_operation_post_completion (opKeyOf s operation) =
      none) :
    (GetDeferredOperationResultKHR s operation VK_SUCCESS).2.2.run_log =
      s.run_log := by
  have hred : (GetDeferredOperationResultKHR s operation VK_SUCCESS).2.2 =
      postCheckPhase s (opKeyOf s operation) := by
    simp [GetDeferredOperationResultKHR, mapPop, h]
  rw [hred]
  exact (postCheckPhase_frame s _).1


/-- A successful query with queued completion closures pops and runs them
all; the post-check phase touches neither the completion log nor the
Registry. -/
theorem query_found_desc {s : DispatchState} {operation : Nat}
    {fns : List DeferClosure}
    (h : mapFind s.deferred_operation_post_completion (opKeyOf s operation) =
      some fns) :
    (GetDeferredOperationResultKHR s operation VK_SUCCESS).2.2.run_log =
      s.run_log ++ fns ∧
    (GetDeferredOperationResultKHR s operation
      VK_SUCCESS).2.2.deferred_operation_post_completion =
      mapErase s.deferred_operation_post_completion (opKeyOf s operation) ∧
    (GetDeferredOperationResultKHR s operation VK_SUCCESS).2.2.wrap_handles =
      s.wrap_handles ∧
    (GetDeferredOperationResultKHR s operation VK_SUCCESS).2.2.unique_id_mapping =
      s.unique_id_mapping := by
  have hred : (GetDeferredOperationResultKHR s operation VK_SUCCESS).2.2 =
      postCheckPhase
        (runClosures
          { s with deferred_operation_post_completion :=
              mapErase s.deferred_operation_post_completion (opKeyOf s operation) }
          fns)
        (opKeyOf s operation) := by
    simp [GetDeferredOperationResultKHR, mapPop, h]
  rw [hred]
  obtain ⟨p1, p2, p3, p4, _, _, _, _⟩ := postCheckPhase_frame
    (runClosures
      { s with deferred_operation_post_completion :=
          mapErase s.deferred_operation_post_completion (opKeyOf s operation) }
      fns)
    (opKeyOf s operation)
  obtain ⟨f1, _, f3, _, _, _, f7, _, _⟩ := runClosures_frame fns
    { s with deferred_operation_post_completion :=
        mapErase s.deferred_operation_post_completion (opKeyOf s operation) }
  refine ⟨?_, ?_, ?_, ?_⟩
  · rw [p1, runClosures_run_log]
  · rw [p2, f7]
  · rw [p3, f1]
  · rw [p4, f3]


/-- Claim C5: for every deferred operation with queued completion
closures, whichever of the two polling entry points first observes
success runs all queued closures exactly once, in queue order, and
removes the record; a subsequent join or query runs no closure again. -/
theorem C5_deferred_exactly_once (s : DispatchState) (operation : Nat)
    (fns : List DeferClosure)
    (h : mapFind s.deferred_operation_post_completion (opKeyOf s operation) =
      some fns) :
    DeferredExactlyOnceSpec s operation fns := by
  constructor
  · obtain ⟨hlog, hpost, hw, hm⟩ := join_found_desc h
    have hkey : opKeyOf (DeferredOperationJoinKHR s operation
        VK_SUCCESS).2.2 operation = opKeyOf s operation := opKeyOf_congr hw hm _
    have hnone : mapFind (DeferredOperationJoinKHR s operation
        VK_SUCCESS).2.2.deferred_operation_post_completion
        (opKeyOf (DeferredOperationJoinKHR s operation VK_SUCCESS).2.2
          operation) = none := by
      rw [hkey, hpost]
      exact mapFind_mapErase_self _ _
    refine ⟨hlog, ?_, ?_, ?_⟩
    · rw [hpost]
      exact mapFind_mapErase_self _ _
    · rw [join_missing_state hnone]
    · exact query_missing_run_log hnone
  · obtain ⟨hlog, hpost, hw, hm⟩ := query_found_desc h
    have hkey : opKeyOf (GetDeferredOperationResultKHR s operation
        VK_SUCCESS).2.2 operation = opKeyOf s operation := opKeyOf_congr hw hm _
    have hnone : mapFind (GetDeferredOperationResultKHR s operation
        VK_SUCCESS).2.2.deferred_operation_post_completion
        (opKeyOf (GetDeferredOperationResultKHR s operation VK_SUCCESS).2.2
          operation) = none := by
      rw [hkey, hpost]
      exact mapFind_mapErase_self _ _
    refine ⟨hlog, ?_, ?_, ?_⟩
    · rw [hpost]
      exact mapFind_mapErase_self _ _
    · rw [join_missing_state hnone]
    · exact query_missing_run_log hnone


/-- Witness for C5 at a concrete state with three queued closures. -/
theorem C5_deferred_exactly_once_witness :
    mapFind exDeferState.deferred_operation_post_completion
      (opKeyOf exDeferState 7) =
      some [DeferClosure.freeBuildInfos 0, DeferClosure.freeBuildInfos 1,
            DeferClosure.rtCleanupUnwrapped 7 [31, 32]] ∧
    DeferredExactlyOnceSpec exDeferState 7
      [DeferClosure.freeBuildInfos 0, DeferClosure.freeBuildInfos 1,
       DeferClosure.rtCleanupUnwrapped 7 [31, 32]] :=
  ⟨by decide,
   C5_deferred_exactly_once exDeferState 7
     [DeferClosure.freeBuildInfos 0, DeferClosure.freeBuildInfos 1,
      DeferClosure.rtCleanupUnwrapped 7 [31, 32]] (by decide)⟩


/-- Counterexample for claim C6: when the driver reports the deferred
operation as failed (here with the out-of-host-memory error through
either polling entry point), the queued completion closure does NOT run:
the run log stays empty and the closure stays queued, contradicting the
claim that queued closures still run on failure. -/
theorem C6_counterexample :
    (GetDeferredOperationResultKHR exDeferState 7
      VK_ERROR_OUT_OF_HOST_MEMORY).2.2.run_log = [] ∧
    mapFind (GetDeferredOperationResultKHR exDeferState 7
      VK_ERROR_OUT_OF_HOST_MEMORY).2.2.deferred_operation_post_completion 7 =
      some [DeferClosure.freeBuildInfos 0, DeferClosure.freeBuildInfos 1,
            DeferClosure.rtCleanupUnwrapped 7 [31, 32]] ∧
    (DeferredOperationJoinKHR exDeferState 7
      VK_ERROR_OUT_OF_HOST_MEMORY).2.2.run_log = [] := by
  refine ⟨?_, ?_, ?_⟩ <;> rfl


/-- Claim C6 (amended): when a polling entry point returns a non-success
result (in particular when the driver reports the deferred operation as
failed), no queued completion closure runs at that call, the record stays
queued, and no wrapped handles are materialized from the result: the
state is unchanged. -/
theorem C6_amended_failure_runs_nothing (s : DispatchState) (operation : Nat)
    (r : Int) (hr : r ≠ VK_SUCCESS) :
    (DeferredOperationJoinKHR s operation r).2.2 = s ∧
    (GetDeferredOperationResultKHR s operation r).2.2 = s := by
  constructor
  · simp [DeferredOperationJoinKHR, hr]
  · simp [GetDeferredOperationResultKHR, hr]


/-- Witness for the amended C6. -/
theorem C6_amended_failure_runs_nothing_witness :
    (VK_ERROR_OUT_OF_HOST_MEMORY ≠ VK_SUCCESS) ∧
    ((DeferredOperationJoinKHR exDeferState 7
      VK_ERROR_OUT_OF_HOST_MEMORY).2.2 = exDeferState ∧
     (GetDeferredOperationResultKHR exDeferState 7
      VK_ERROR_OUT_OF_HOST_MEMORY).2.2 = exDeferState) :=
  ⟨by decide,
   C6_amended_failure_runs_nothing exDeferState 7 VK_ERROR_OUT_OF_HOST_MEMORY
     (by decide)⟩


/-- Counterexample for claim C7: CmdPushDescriptorSetWithTemplate2KHR
mutates the caller structure in place: after the call the caller-visible
descriptorUpdateTemplate field holds the unwrapped handle 99 and the
layout field the unwrapped handle 42, not the original values 5 and 7,
so the application-supplied input structure is not left unchanged. -/
theorem C7_counterexample :
    ((CmdPushDescriptorSetWithTemplate2KHR exTmplState exPushInfo).map
      (fun r => (r.2.descriptorUpdateTemplate, r.2.layout))) = some (99, 42) ∧
    exPushInfo.descriptorUpdateTemplate = 5 ∧
    exPushInfo.layout = 7 := by
  refine ⟨?_, rfl, rfl⟩
  rfl


/-- Claim C7 (amended): entry points that rewrite through the
argument-copy path leave the caller structures untouched except for
designated output fields: QueuePresentKHR unwraps handles only in the
driver-facing deep copy and writes back only the pResults output array;
CmdPushDescriptorSetWithTemplate2KHR however rewrites the caller
structure in place, leaving the unwrapped template and layout handles and
the rewritten buffer pointer visible to the caller after the call. -/
theorem C7_amended_copy_except_push2 (s : DispatchState) (queueArg : Nat)
    (pi : PresentInfo) (dr : Int) (drs : List Int)
    (info : PushDescriptorSetWithTemplateInfo UpdateData)
    (buf : List (Nat × TemplateEntryPayload))
    (hflag : s.wrap_handles = true)
    (hbuf : BuildUnwrappedUpdateTemplateBuffer s info.descriptorUpdateTemplate
      info.pData = some buf) :
    (QueuePresentKHR s queueArg (some pi) dr drs).2.2.1 =
      some { waitSemaphores := pi.waitSemaphores
             swapchains := pi.swapchains
             pResults := pi.pResults.map (fun _ => drs) } ∧
    (QueuePresentKHR s queueArg (some pi) dr drs).1 =
      some { waitSemaphores := pi.waitSemaphores.map (fun h => unwrapH s h)
             swapchains := pi.swapchains.map (fun h => unwrapH s h)
             pResults := pi.pResults } ∧
    CmdPushDescriptorSetWithTemplate2KHR s info =
      some ({ descriptorUpdateTemplate := unwrapH s info.descriptorUpdateTemplate
              layout := unwrapH s info.layout
              setNumber := info.setNumber
              pData := TemplateDataArg.unwrapped buf },
            { descriptorUpdateTemplate := unwrapH s info.descriptorUpdateTemplate
              layout := unwrapH s info.layout
              setNumber := info.setNumber
              pData := TemplateDataArg.unwrapped buf }) := by
  refine ⟨?_, ?_, ?_⟩
  · simp [QueuePresentKHR, hflag]
  · simp [QueuePresentKHR, hflag]
  · simp [CmdPushDescriptorSetWithTemplate2KHR, hflag, hbuf]


/-- Witness for the amended C7 at a concrete present info and push
info. -/
theorem C7_amended_copy_except_push2_witness :
    (exTmplState.wrap_handles = true ∧
     BuildUnwrappedUpdateTemplateBuffer exTmplState
       exPushInfo.descriptorUpdateTemplate exPushInfo.pData = some []) ∧
    ((QueuePresentKHR exTmplState 3
        (some ⟨[5], [7], some [0]⟩) VK_SUCCESS [0]).2.2.1 =
      some { waitSemaphores := [5]
             swapchains := [7]
             pResults := some [0] } ∧
     (QueuePresentKHR exTmplState 3
        (some ⟨[5], [7], some [0]⟩) VK_SUCCESS [0]).1 =
      some { waitSemaphores := ([5] : List Nat).map (fun h => unwrapH exTmplState h)
             swapchains := ([7] : List Nat).map (fun h => unwrapH exTmplState h)
             pResults := (some [0] : Option (List Int)) } ∧
     CmdPushDescriptorSetWithTemplate2KHR exTmplState exPushInfo =
      some ({ descriptorUpdateTemplate :=
                unwrapH exTmplState exPushInfo.descriptorUpdateTemplate
              layout := unwrapH exTmplState exPushInfo.layout
              setNumber := exPushInfo.setNumber
              pData := TemplateDataArg.unwrapped [] },
            { descriptorUpdateTemplate :=
                unwrapH exTmplState exPushInfo.descriptorUpdateTemplate
              layout := unwrapH exTmplState exPushInfo.layout
              setNumber := exPushInfo.setNumber
              pData := TemplateDataArg.unwrapped [] })) := by
  refine ⟨⟨rfl, rfl⟩, ?_⟩
  have h := C7_amended_copy_except_push2 exTmplState 3 ⟨[5], [7], some [0]⟩
    VK_SUCCESS [0] exPushInfo [] rfl rfl
  exact h


/-- Claim C10: the update-with-template entry points require the shadow
create-info entry of the template to exist; the entry is established by
the create-template entry points (keyed by the wrapped handle they
return) and, under that precondition, BuildUnwrappedUpdateTemplateBuffer
never hits its unchecked lookup-failure branch, so every update
entry point is well defined; without the entry the buffer construction is
the undefined-lookup case. -/
theorem C10_template_shadow_precondition (s : DispatchState)
    (ci ciShadow : DescriptorUpdateTemplateCreateInfo)
    (driverTemplate tmpl tmplMissing dset layoutArg setN : Nat) (d : UpdateData)
    (hflag : s.wrap_handles = true)
    (hshadow : mapFind s.desc_template_createinfo_map tmpl = some ciShadow)
    (hmiss : mapFind s.desc_template_createinfo_map tmplMissing = none) :
    mapFind (CreateDescriptorUpdateTemplate s (some ci) VK_SUCCESS
      driverTemplate).2.2.desc_template_createinfo_map
      (CreateDescriptorUpdateTemplate s (some ci) VK_SUCCESS
        driverTemplate).2.1 = some (unwrapTemplateCI s ci) ∧
    mapFind (CreateDescriptorUpdateTemplateKHR s (some ci) VK_SUCCESS
      driverTemplate).2.2.desc_template_createinfo_map
      (CreateDescriptorUpdateTemplateKHR s (some ci) VK_SUCCESS
        driverTemplate).2.1 = some (unwrapTemplateCI s ci) ∧
    (BuildUnwrappedUpdateTemplateBuffer s tmpl d).isSome = true ∧
    (UpdateDescriptorSetWithTemplate s dset tmpl d).isSome = true ∧
    (UpdateDescriptorSetWithTemplateKHR s dset tmpl d).isSome = true ∧
    (CmdPushDescriptorSetWithTemplateKHR s tmpl layoutArg setN d).isSome = true ∧
    (CmdPushDescriptorSetWithTemplate2KHR s
      ⟨tmpl, layoutArg, setN, d⟩).isSome = true ∧
    BuildUnwrappedUpdateTemplateBuffer s tmplMissing d = none := by
  refine ⟨?_, ?_, ?_, ?_, ?_, ?_, ?_, ?_⟩
  · have hred : (CreateDescriptorUpdateTemplate s (some ci) VK_SUCCESS
        driverTemplate) =
        (VK_SUCCESS, (wrapNew s driverTemplate).1,
         { (wrapNew s driverTemplate).2 with
           desc_template_createinfo_map :=
             mapSet (wrapNew s driverTemplate).2.desc_template_createinfo_map
               (wrapNew s driverTemplate).1 (unwrapTemplateCI s ci) }) := by
      simp [CreateDescriptorUpdateTemplate, hflag]
    rw [hred]
    exact mapFind_mapSet_self _ _ _
  · have hred : (CreateDescriptorUpdateTemplateKHR s (some ci) VK_SUCCESS
        driverTemplate) =
        (VK_SUCCESS, (wrapNew s driverTemplate).1,
         { (wrapNew s driverTemplate).2 with
           desc_template_createinfo_map :=
             mapSet (wrapNew s driverTemplate).2.desc_template_createinfo_map
               (wrapNew s driverTemplate).1 (unwrapTemplateCI s ci) }) := by
      simp [CreateDescriptorUpdateTemplateKHR, hflag]
    rw [hred]
    exact mapFind_mapSet_self _ _ _
  · simp [BuildUnwrappedUpdateTemplateBuffer, hshadow]
  · simp [UpdateDescriptorSetWithTemplate, hflag,
      BuildUnwrappedUpdateTemplateBuffer, hshadow]
  · simp [UpdateDescriptorSetWithTemplateKHR, hflag,
      BuildUnwrappedUpdateTemplateBuffer, hshadow]
  · simp [CmdPushDescriptorSetWithTemplateKHR, hflag,
      BuildUnwrappedUpdateTemplateBuffer, hshadow]
  · simp [CmdPushDescriptorSetWithTemplate2KHR, hflag,
      BuildUnwrappedUpdateTemplateBuffer, hshadow]
  · simp [BuildUnwrappedUpdateTemplateBuffer, hmiss]


/-- Witness for C10 at the concrete template state (template 5 shadowed,
6 unknown). -/
theorem C10_template_shadow_precondition_witness :
    (exTmplState.wrap_handles = true ∧
     mapFind exTmplState.desc_template_createinfo_map 5 = some ⟨0, 0, 0, []⟩ ∧
     mapFind exTmplState.desc_template_createinfo_map 6 = none) ∧
    (mapFind (CreateDescriptorUpdateTemplate exTmplState
      (some ⟨0, 15, 0, []⟩) VK_SUCCESS
      77).2.2.desc_template_createinfo_map
      (CreateDescriptorUpdateTemplate exTmplState (some ⟨0, 15, 0, []⟩)
        VK_SUCCESS 77).2.1 =
      some (unwrapTemplateCI exTmplState ⟨0, 15, 0, []⟩) ∧
    mapFind (CreateDescriptorUpdateTemplateKHR exTmplState
      (some ⟨0, 15, 0, []⟩) VK_SUCCESS
      77).2.2.desc_template_createinfo_map
      (CreateDescriptorUpdateTemplateKHR exTmplState (some ⟨0, 15, 0, []⟩)
        VK_SUCCESS 77).2.1 =
      some (unwrapTemplateCI exTmplState ⟨0, 15, 0, []⟩) ∧
    (BuildUnwrappedUpdateTemplateBuffer exTmplState 5 exUpdateData).isSome =
      true ∧
    (UpdateDescriptorSetWithTemplate exTmplState 9 5 exUpdateData).isSome =
      true ∧
    (UpdateDescriptorSetWithTemplateKHR exTmplState 9 5 exUpdateData).isSome =
      true ∧
    (CmdPushDescriptorSetWithTemplateKHR exTmplState 5 7 0
      exUpdateData).isSome = true ∧
    (CmdPushDescriptorSetWithTemplate2KHR exTmplState
      ⟨5, 7, 0, exUpdateData⟩).isSome = true ∧
    BuildUnwrappedUpdateTemplateBuffer exTmplState 6 exUpdateData = none) :=
  ⟨⟨rfl, rfl, rfl⟩,
   C10_template_shadow_precondition exTmplState ⟨0, 15, 0, []⟩ ⟨0, 0, 0, []⟩
     77 5 6 9 7 0 exUpdateData rfl rfl rfl⟩


theorem join_frame (s : DispatchState) (operation : Nat) (r : Int) :
    (DeferredOperationJoinKHR s operation r).1 = opKeyOf s operation ∧
    (DeferredOperationJoinKHR s operation r).2.1 = r ∧
    (DeferredOperationJoinKHR s operation r).2.2.unique_id_mapping =
      s.unique_id_mapping ∧
    (DeferredOperationJoinKHR s operation r).2.2.pool_descriptor_sets_map =
      s.pool_descriptor_sets_map ∧
    (DeferredOperationJoinKHR s operation
      r).2.2.swapchain_wrapped_image_handle_map =
      s.swapchain_wrapped_image_handle_map ∧
    (DeferredOperationJoinKHR s operation r).2.2.desc_template_createinfo_map =
      s.desc_template_createinfo_map ∧
    (DeferredOperationJoinKHR s operation r).2.2.global_unique_id =
      s.global_unique_id := by
  unfold DeferredOperationJoinKHR
  dsimp only [mapPop]
  by_cases hr : r = VK_SUCCESS
  · rw [if_pos hr]
    cases hfind : mapFind s.deferred_operation_post_completion
        (opKeyOf s operation) with
    | none => exact ⟨rfl, rfl, rfl, rfl, rfl, rfl, rfl⟩
    | some fns =>
      dsimp only
      obtain ⟨_, f2, f3, f4, f5, f6, _, _, _⟩ := runClosures_frame fns
        { s with deferred_operation_post_completion :=
            mapErase s.deferred_operation_post_completion (opKeyOf s operation) }
      exact ⟨rfl, rfl, f3, f4, f5, f6, f2⟩
  · rw [if_neg hr]
    exact ⟨rfl, rfl, rfl, rfl, rfl, rfl, rfl⟩


theorem query_frame (s : DispatchState) (operation : Nat) (r : Int) :
    (GetDeferredOperationResultKHR s operation r).1 = opKeyOf s operation ∧
    (GetDeferredOperationResultKHR s operation r).2.1 = r ∧
    (GetDeferredOperationResultKHR s operation r).2.2.unique_id_mapping =
      s.unique_id_mapping ∧
    (GetDeferredOperationResultKHR s operation r).2.2.pool_descriptor_sets_map =
      s.pool_descriptor_sets_map ∧
    (GetDeferredOperationResultKHR s operation
      r).2.2.swapchain_wrapped_image_handle_map =
      s.swapchain_wrapped_image_handle_map ∧
    (GetDeferredOperationResultKHR s operation
      r).2.2.desc_template_createinfo_map = s.desc_template_createinfo_map ∧
    (GetDeferredOperationResultKHR s operation r).2.2.global_unique_id =
      s.global_unique_id := by
  unfold GetDeferredOperationResultKHR
  dsimp only [mapPop]
  by_cases hr : r = VK_SUCCESS
  · rw [if_pos hr]
    cases hfind : mapFind s.deferred_operation_post_completion
        (opKeyOf s operation) with
    | none =>
      dsimp only
      obtain ⟨_, _, p3, p4, p5, p6, p7, p8⟩ := postCheckPhase_frame s
        (opKeyOf s operation)
      exact ⟨rfl, rfl, p4, p5, p6, p7, p8⟩
    | some fns =>
      dsimp only
      obtain ⟨_, _, p3, p4, p5, p6, p7, p8⟩ := postCheckPhase_frame
        (runClosures
          { s with deferred_operation_post_completion :=
              mapErase s.deferred_operation_post_completion (opKeyOf s operation) }
          fns)
        (opKeyOf s operation)
      obtain ⟨_, f2, f3, f4, f5, f6, _, _, _⟩ := runClosures_frame fns
        { s with deferred_operation_post_completion :=
            mapErase s.deferred_operation_post_completion (opKeyOf s operation) }
      exact ⟨rfl, rfl, p4.trans f3, p5.trans f4, p6.trans f5, p7.trans f6,
        p8.trans f2⟩
  · rw [if_neg hr]
    exact ⟨rfl, rfl, rfl, rfl, rfl, rfl, rfl⟩


/-- Claim C8: if the global handle-wrapping switch is off, every entry
point degrades to pure forwarding: the driver receives exactly the
caller-supplied argument values after a branch on the switch, the caller
receives the driver outputs unchanged, and the Registry and secondary
indexes are neither read nor written. -/
theorem C8_disabled_pure_forwarding (s : DispatchState)
    (pipelineCache dopArg operation handle pool dset tmpl layoutArg setN
      queueArg : Nat)
    (gInfos : List GraphicsPipelineCreateInfo)
    (cInfos : List ComputePipelineCreateInfo)
    (nInfos : List RayTracingPipelineCreateInfoNV)
    (kInfos : List RayTracingPipelineCreateInfoKHR)
    (res r : Int) (pipes sets : List Nat)
    (imgsOpt : Option (List Nat)) (piOpt : Option PresentInfo)
    (drs : List Int) (ciOpt : Option DescriptorUpdateTemplateCreateInfo)
    (rpCI : RenderPassCreateInfo) (d : UpdateData)
    (info : PushDescriptorSetWithTemplateInfo UpdateData)
    (hflag : s.wrap_handles = false) :
    PureForwardingSpec s pipelineCache dopArg operation handle pool dset tmpl
      layoutArg setN queueArg gInfos cInfos nInfos kInfos res r pipes sets
      imgsOpt piOpt drs ciOpt rpCI d info := by
  have hkey : opKeyOf s operation = operation := by
    simp [opKeyOf, hflag]
  obtain ⟨j1, j2, j3, j4, j5, _, j7⟩ := join_frame s operation r
  obtain ⟨q1, q2, q3, q4, q5, _, q7⟩ := query_frame s operation r
  refine ⟨?_, ?_, ?_, ?_, ?_, ?_, ?_, ?_, ?_, ?_, ?_, ?_, ?_, ?_, ?_, ?_,
    ?_, ?_⟩
  · simp [CreateGraphicsPipelines, hflag]
  · simp [CreateComputePipelines, hflag]
  · simp [CreateRayTracingPipelinesNV, hflag]
  · refine ⟨?_, ?_, ?_, ?_, ?_, ?_, ?_⟩ <;>
    · simp only [CreateRayTracingPipelinesKHR, hflag, Bool.false_eq_true,
        if_false]
      split <;> rfl
  · exact ⟨j1.trans hkey, j2, j3, j4, j5, j7⟩
  · exact ⟨q1.trans hkey, q2, q3, q4, q5, q7⟩
  · simp [GetSwapchainImagesKHR, hflag]
  · simp [DestroySwapchainKHR, hflag]
  · simp [QueuePresentKHR, hflag]
  · simp [DestroyDescriptorPool, hflag]
  · simp [ResetDescriptorPool, hflag]
  · simp [AllocateDescriptorSets, hflag]
  · simp [CreateDescriptorUpdateTemplate, hflag]
  · simp [DestroyDescriptorUpdateTemplate, hflag]
  · simp [UpdateDescriptorSetWithTemplate, hflag]
  · simp [CmdPushDescriptorSetWithTemplateKHR, hflag]
  · simp [CmdPushDescriptorSetWithTemplate2KHR, hflag]
  · simp [CreateRenderPass, hflag]


/-- Witness for C8 at a concrete disabled-wrapping state. -/
theorem C8_disabled_pure_forwarding_witness :
    exDeferState.wrap_handles = false ∧
    PureForwardingSpec exDeferState 1 2 7 4 5 6 8 9 0 3 [] [] [] []
      VK_SUCCESS VK_OPERATION_DEFERRED_KHR [11, 0, 12] [21] (some [31])
      (some ⟨[5], [7], none⟩) [0] (some ⟨0, 0, 0, []⟩) ⟨[]⟩ exUpdateData
      exPushInfo :=
  ⟨rfl,
   C8_disabled_pure_forwarding exDeferState 1 2 7 4 5 6 8 9 0 3 [] [] [] []
     VK_SUCCESS VK_OPERATION_DEFERRED_KHR [11, 0, 12] [21] (some [31])
     (some ⟨[5], [7], none⟩) [0] (some ⟨0, 0, 0, []⟩) ⟨[]⟩ exUpdateData
     exPushInfo rfl⟩

end VVL

